import Mathlib

/-!
Verification of the chainlink repository sample: the ORM batching helpers
(`Batch`, `UnscopedJobRunsWithStatus`, `ORM.Close` from core/store/orm/orm.go)
and the VRF cryptographic core (modelled from the specification, since only
its tests appear in the sample).
-/

set_option maxRecDepth 100000

namespace Chainlink

/-! ## ORM: `Batch` (core/store/orm/orm.go)

The Go source:

```
func Batch(chunkSize uint, cb func(offset, limit uint) (uint, error)) error {
    offset := uint(0)
    limit := uint(1000)
    for {
        count, err := cb(offset, limit)
        if err != nil { return err }
        if count < limit { return nil }
        offset += limit
    }
}
```

The callback is an arbitrary Go closure, so it is modelled as a state
transformer `σ → Nat → Nat → σ × Except ε Nat`.  The `for` loop has no
bound in the source, so the embedding is fuel-indexed: `none` means the
loop is still running after `fuel` iterations, `some (s, none)` means the
loop returned `nil` in state `s`, and `some (s, some e)` means it returned
the error `e`.
-/

/-- The constant `BatchSize` from orm.go (passed to `Batch` as `chunkSize`). -/
def BatchSize : Nat := 100

/-- The loop body of `Batch`: current `offset` and `limit`, callback state `s`. -/
def batchLoop {σ ε : Type} (cb : σ → Nat → Nat → σ × Except ε Nat) :
    Nat → Nat → Nat → σ → Option (σ × Option ε)
  | 0, _, _, _ => none
  | fuel + 1, offset, limit, s =>
      match cb s offset limit with
      | (s', Except.error e) => some (s', some e)
      | (s', Except.ok count) =>
          if count < limit then some (s', none)
          else batchLoop cb fuel (offset + limit) limit s'

/-- `Batch` from orm.go: initializes `offset := 0`, `limit := 1000` and runs the
loop.  The `chunkSize` argument is bound exactly as in the source. -/
def Batch {σ ε : Type} (chunkSize : Nat) (cb : σ → Nat → Nat → σ × Except ε Nat)
    (s : σ) (fuel : Nat) : Option (σ × Option ε) :=
  batchLoop cb fuel 0 1000 s

/-- The behaviour claim C8 ascribes to `Batch`: round `k` invokes the callback
with `offset = 1000 * k` and `limit = 1000`, stopping with `nil` exactly when a
round reports a count below 1000 (or with that round's error). -/
def batchClaimedBehavior {σ ε : Type} (cb : σ → Nat → Nat → σ × Except ε Nat) :
    Nat → Nat → σ → Option (σ × Option ε)
  | 0, _, _ => none
  | fuel + 1, k, s =>
      match cb s (1000 * k) 1000 with
      | (s', Except.error e) => some (s', some e)
      | (s', Except.ok count) =>
          if count < 1000 then some (s', none)
          else batchClaimedBehavior cb fuel (k + 1) s'

/-! ## ORM: `UnscopedJobRunsWithStatus` (core/store/orm/orm.go)

```
runIDs := pluck of matching ids, ordered by created_at asc
return Batch(BatchSize, func(offset, limit uint) (uint, error) {
    batchIDs := runIDs[offset:utils.MinUint(limit, uint(len(runIDs)))]
    ... fetch the runs with those ids, pass each to cb ...
    return uint(len(batchIDs)), nil
})
```

The database interaction is abstracted to the ordered list `runIDs` of
matching ids; the ids handed to the user callback are accumulated in the
state.  Go slicing `l[lo:hi]` panics unless `lo ≤ hi ≤ len l`, which the
embedding makes explicit. -/

/-- Go slice expression `l[lo:hi]`: defined only when `lo ≤ hi ≤ len l`
(out-of-range slicing panics in Go, modelled as `none`). -/
def goSlice {α : Type} (l : List α) (lo hi : Nat) : Option (List α) :=
  if lo ≤ hi ∧ hi ≤ l.length then some ((l.take hi).drop lo) else none

/-- The closure `UnscopedJobRunsWithStatus` passes to `Batch`.  The state is the
list of run ids passed to the user callback so far; a slice panic is surfaced
as `Except.error ()`. -/
def jobRunsBatchCB {α : Type} (runIDs : List α) :
    List α → Nat → Nat → List α × Except Unit Nat :=
  fun processed offset limit =>
    match goSlice runIDs offset (min limit runIDs.length) with
    | none => (processed, Except.error ())
    | some batchIDs => (processed ++ batchIDs, Except.ok batchIDs.length)

/-- `UnscopedJobRunsWithStatus`, abstracted over the plucked id list: runs
`Batch BatchSize` with the slicing closure, starting from no processed ids. -/
def UnscopedJobRunsWithStatus {α : Type} (runIDs : List α) (fuel : Nat) :
    Option (List α × Option Unit) :=
  Batch BatchSize (jobRunsBatchCB runIDs) [] fuel

/-! ## ORM: `Close` (core/store/orm/orm.go)

```
func (orm *ORM) Close() error {
    var err error
    orm.closeOnce.Do(func() {
        err = multierr.Combine(
            orm.db.Close(),
            orm.lockingStrategy.Unlock(orm.advisoryLockTimeout),
        )
    })
    return err
}
```

`sync.Once` is modelled by the boolean `onceDone`; `err` is a fresh local on
every call, so a skipped `Do` leaves it `nil`.  The errors the two underlying
close operations would report are part of the state, and `multierr.Combine`
of two optional errors is the list of those present (`[]` plays `nil`). -/

/-- `multierr.Combine` on two optional errors: the errors present, in order. -/
def multierrCombine {ε : Type} (e1 e2 : Option ε) : List ε :=
  e1.toList ++ e2.toList

/-- The state of an `ORM` value relevant to `Close`. -/
structure ORMState (ε : Type) where
  /-- whether `closeOnce.Do` has already executed its body -/
  onceDone : Bool
  /-- whether the underlying database connection is open -/
  dbOpen : Bool
  /-- whether the locking strategy still holds its lock -/
  lockHeld : Bool
  /-- the error `orm.db.Close()` reports when invoked -/
  dbCloseErr : Option ε
  /-- the error `orm.lockingStrategy.Unlock(..)` reports when invoked -/
  unlockErr : Option ε
  deriving Repr, DecidableEq

/-- `ORM.Close`: the first call (with `onceDone = false`) closes the database,
releases the lock and returns the combined errors; any other call does nothing
and returns `nil` (the empty error list). -/
def ORMClose {ε : Type} (s : ORMState ε) : ORMState ε × List ε :=
  if s.onceDone then (s, [])
  else ({ s with onceDone := true, dbOpen := false, lockHeld := false },
        multierrCombine s.dbCloseErr s.unlockErr)

/-! ## Theorems about the ORM batching helpers -/

theorem batchLoop_succ {σ ε : Type} (cb : σ → Nat → Nat → σ × Except ε Nat)
    (fuel offset limit : Nat) (s : σ) :
    batchLoop cb (fuel + 1) offset limit s =
      match cb s offset limit with
      | (s', Except.error e) => some (s', some e)
      | (s', Except.ok count) =>
          if count < limit then some (s', none)
          else batchLoop cb fuel (offset + limit) limit s' := rfl

theorem batchLoop_eq_claimed {σ ε : Type} (cb : σ → Nat → Nat → σ × Except ε Nat) :
    ∀ (fuel k : Nat) (s : σ),
      batchLoop cb fuel (1000 * k) 1000 s = batchClaimedBehavior cb fuel k s := by
  intro fuel
  induction fuel with
  | zero => intro k s; rfl
  | succ n ih =>
    intro k s
    rw [batchLoop_succ]
    show _ = batchClaimedBehavior cb (n + 1) k s
    rw [show batchClaimedBehavior cb (n + 1) k s =
        match cb s (1000 * k) 1000 with
        | (s', Except.error e) => some (s', some e)
        | (s', Except.ok count) =>
            if count < 1000 then some (s', none)
            else batchClaimedBehavior cb n (k + 1) s' from rfl]
    rcases cb s (1000 * k) 1000 with ⟨s', r⟩
    rcases r with e | count
    · rfl
    · dsimp only
      by_cases hc : count < 1000
      · simp [hc]
      · simp only [hc, if_false]
        rw [show 1000 * k + 1000 = 1000 * (k + 1) by ring]
        exact ih (k + 1) s'

/-- C8: `Batch` ignores its `chunkSize` argument entirely; on round `k` it
invokes the callback with `offset = 1000 * k` and `limit = 1000`, and it
returns `nil` exactly when a round reports a count below 1000 (or that round's
error otherwise).  Stated as: for any `chunkSize` whatsoever, `Batch` coincides
with the `chunkSize`-free claimed behaviour started at round 0. -/
theorem Batch_ignores_chunkSize {σ ε : Type} (chunkSize : Nat)
    (cb : σ → Nat → Nat → σ × Except ε Nat) (s : σ) (fuel : Nat) :
    Batch chunkSize cb s fuel = batchClaimedBehavior cb fuel 0 s := by
  have h := batchLoop_eq_claimed cb fuel 0 s
  rwa [Nat.mul_zero] at h

theorem jobRunsBatchCB_first {α : Type} (runIDs : List α) :
    jobRunsBatchCB runIDs [] 0 1000 =
      (runIDs.take 1000, Except.ok (min 1000 runIDs.length)) := by
  unfold jobRunsBatchCB goSlice
  have hcond : 0 ≤ min 1000 runIDs.length ∧ min 1000 runIDs.length ≤ runIDs.length :=
    ⟨Nat.zero_le _, Nat.min_le_right _ _⟩
  rw [if_pos hcond]
  have htake : runIDs.take (min 1000 runIDs.length) = runIDs.take 1000 := by
    apply List.take_eq_take.mpr
    omega
  simp [htake, List.length_take]

theorem jobRunsBatchCB_second {α : Type} (runIDs : List α) (p : List α)
    (h : 1000 ≤ runIDs.length) :
    jobRunsBatchCB runIDs p 1000 1000 = (p, Except.ok 0) := by
  unfold jobRunsBatchCB goSlice
  have hmin : min 1000 runIDs.length = 1000 := Nat.min_eq_left h
  rw [hmin, if_pos ⟨Nat.le_refl _, h⟩]
  have hdrop : (runIDs.take 1000).drop 1000 = [] := by
    apply List.drop_eq_nil_of_le
    simp [List.length_take]
  simp [hdrop]

/-- C9: `UnscopedJobRunsWithStatus` passes to the user callback exactly the
first `min n 1000` of the `n` matching run ids (in their `created_at`
ascending order) and then returns `nil`: because the batch slice's upper
bound is `min limit n` rather than `offset + limit`, the second batch is
empty, so matches beyond the first 1000 are never passed on.  Two loop rounds
always suffice. -/
theorem UnscopedJobRunsWithStatus_processes_first_1000 {α : Type}
    (runIDs : List α) (fuel : Nat) (h : 2 ≤ fuel) :
    UnscopedJobRunsWithStatus runIDs fuel = some (runIDs.take 1000, none) := by
  obtain ⟨f, rfl⟩ : ∃ f, fuel = f + 2 := ⟨fuel - 2, by omega⟩
  unfold UnscopedJobRunsWithStatus Batch
  rw [show f + 2 = (f + 1) + 1 from rfl, batchLoop_succ, jobRunsBatchCB_first]
  dsimp only
  by_cases hn : runIDs.length < 1000
  · have hmin : min 1000 runIDs.length = runIDs.length := by omega
    rw [hmin, if_pos hn]
  · have hmin : min 1000 runIDs.length = 1000 := by omega
    rw [hmin, if_neg (by omega : ¬ (1000 < 1000))]
    rw [batchLoop_succ, jobRunsBatchCB_second _ _ (by omega)]
    dsimp only
    rw [if_pos (by omega : (0:Nat) < 1000)]

/-- C9 witness: on a three-element id list with fuel 2, the callback receives
exactly the whole (sub-1000-element) list and the call returns `nil`. -/
theorem UnscopedJobRunsWithStatus_processes_first_1000_witness :
    2 ≤ 2 ∧ UnscopedJobRunsWithStatus [0, 1, 2] 2 = some (List.take 1000 [0, 1, 2], none) :=
  ⟨by decide, UnscopedJobRunsWithStatus_processes_first_1000 [0, 1, 2] 2 (by decide)⟩

/-- C10: `ORM.Close` is idempotent at the public interface: the first call
(fresh `sync.Once`) closes the database connection, releases the locking
strategy and reports the combined errors; every subsequent call leaves the
state untouched and returns `nil`, regardless of what the first call
returned. -/
theorem ORMClose_idempotent {ε : Type} (s : ORMState ε) (h : s.onceDone = false) :
    (ORMClose s).1.dbOpen = false ∧
    (ORMClose s).1.lockHeld = false ∧
    (ORMClose s).2 = multierrCombine s.dbCloseErr s.unlockErr ∧
    ORMClose (ORMClose s).1 = ((ORMClose s).1, []) := by
  simp [ORMClose, h]

/-- C10 witness: a fresh ORM whose underlying close and unlock would both
fail; the first `Close` still transitions it, and the second is a no-op
returning `nil`. -/
theorem ORMClose_idempotent_witness :
    (ORMState.mk false true true (some "db close failed") (some "unlock failed")).onceDone
        = false ∧
    ((ORMClose (ORMState.mk false true true (some "db close failed")
        (some "unlock failed") : ORMState String)).1.dbOpen = false ∧
      (ORMClose (ORMState.mk false true true (some "db close failed")
        (some "unlock failed") : ORMState String)).1.lockHeld = false ∧
      (ORMClose (ORMState.mk false true true (some "db close failed")
        (some "unlock failed") : ORMState String)).2 =
        multierrCombine (some "db close failed") (some "unlock failed") ∧
      ORMClose (ORMClose (ORMState.mk false true true (some "db close failed")
        (some "unlock failed") : ORMState String)).1 =
        ((ORMClose (ORMState.mk false true true (some "db close failed")
          (some "unlock failed") : ORMState String)).1, [])) :=
  ⟨rfl, ORMClose_idempotent _ rfl⟩

/-! ## VRF field arithmetic

The VRF implementation (core/services/vrf/vrf.go) is not part of the sample —
only its cross-check tests are — so the arithmetic layer is modelled from the
specification (§4.1): arbitrary-precision integers with explicit modular
reduction. -/

/-- Modelled from the spec: `fieldSize`, the secp256k1 base-field prime
`2^256 - 2^32 - 977` (the implementation file carrying the constant is
missing from the sample). -/
def fieldSize : Nat :=
  115792089237316195423570985008687907853269984665640564039457584007908834671663

/-- Modelled from the spec: `GroupOrder`, the secp256k1 curve order (the
implementation file carrying the constant is missing from the sample). -/
def GroupOrder : Nat :=
  115792089237316195423570985008687907852837564279074904382605163141518161494337

/-- Modelled from the spec: `exp(base, exponent, modulus)` — modular
exponentiation of arbitrary-precision integers (Go `big.Int.Exp`). -/
def exp (base exponent modulus : Nat) : Nat := base ^ exponent % modulus

/-- Modelled from the spec: `IsSquare(a)` — Euler's criterion,
`exp(a, (p-1)/2, p) == 1` (§4.1; the implementing function is missing from
the sample, only its tests are present). -/
def IsSquare (a : Nat) : Bool := exp a ((fieldSize - 1) / 2) fieldSize == 1

/-- Modelled from the spec: `SquareRoot(a)` — the candidate
`exp(a, (p+1)/4, p)`, returned unconditionally (§4.1). -/
def SquareRoot (a : Nat) : Nat := exp a ((fieldSize + 1) / 4) fieldSize

/-- Modelled from the spec: `YSquared(x) = x³ + 7 mod p` (§4.3). -/
def YSquared (x : Nat) : Nat := (x ^ 3 + 7) % fieldSize

/-! Binary modular exponentiation with explicit fuel.  `exp` itself is the
mathematical specification; `expMod` computes the same value in
O(log exponent) multiplications so that concrete 256-bit instances can be
evaluated by the kernel. -/

/-- Fuel-indexed square-and-multiply: `expMod m b e fuel = b ^ e % m`
whenever `e < 2 ^ fuel` and `0 < m`. -/
def expMod (m : Nat) : Nat → Nat → Nat → Nat
  | _, _, 0 => 1 % m
  | b, e, fuel + 1 =>
      if e = 0 then 1 % m
      else
        let r := expMod m (b * b % m) (e / 2) fuel
        if e % 2 = 1 then r * b % m else r

theorem expMod_eq (m : Nat) (hm : 0 < m) :
    ∀ (fuel b e : Nat), e < 2 ^ fuel → expMod m b e fuel = b ^ e % m := by
  intro fuel
  induction fuel with
  | zero =>
    intro b e he
    interval_cases e
    simp [expMod]
  | succ n ih =>
    intro b e he
    by_cases h0 : e = 0
    · subst h0; simp [expMod]
    · have hdiv : e / 2 < 2 ^ n := by
        have h2 : (0:Nat) < 2 := by norm_num
        rw [Nat.div_lt_iff_lt_mul h2]
        calc e < 2 ^ (n + 1) := he
        _ = 2 ^ n * 2 := by ring
      have hr : expMod m (b * b % m) (e / 2) n = (b * b % m) ^ (e / 2) % m :=
        ih (b * b % m) (e / 2) hdiv
      have hbb : (b * b % m) ^ (e / 2) % m = b ^ (2 * (e / 2)) % m := by
        rw [← Nat.pow_mod, ← pow_two, ← pow_mul]
      show (if e = 0 then 1 % m
            else
              let r := expMod m (b * b % m) (e / 2) n
              if e % 2 = 1 then r * b % m else r) = b ^ e % m
      rw [if_neg h0]
      show (if e % 2 = 1 then expMod m (b * b % m) (e / 2) n * b % m
            else expMod m (b * b % m) (e / 2) n) = b ^ e % m
      rw [hr, hbb]
      by_cases hodd : e % 2 = 1
      · rw [if_pos hodd]
        have he2 : e = 2 * (e / 2) + 1 := by omega
        conv_rhs => rw [he2, pow_succ]
        exact Nat.mod_mul_mod
      · rw [if_neg hodd]
        have he2 : e = 2 * (e / 2) := by omega
        rw [← he2]

/-- Evaluation bridge: `IsSquare` computed by square-and-multiply.  All
concrete evaluations of Euler's criterion go through this equation, since the
kernel cannot reduce `a ^ e` for 255-bit `e` directly. -/
theorem IsSquare_eq_expMod (a : Nat) :
    IsSquare a = (expMod fieldSize a ((fieldSize - 1) / 2) 256 == 1) := by
  unfold IsSquare exp
  rw [expMod_eq fieldSize (by decide) 256 a ((fieldSize - 1) / 2) (by decide)]

/-! ## Theorems about the field arithmetic -/

/-- The square-root candidate really squares back to `a` whenever Euler's
criterion holds: `p ≡ 3 (mod 4)` exponent arithmetic, no primality needed. -/
theorem squareRoot_squares (a : Nat) (ha : a < fieldSize)
    (hsq : IsSquare a = true) : SquareRoot a ^ 2 % fieldSize = a := by
  have h1 : exp a ((fieldSize - 1) / 2) fieldSize = 1 := by
    have := of_decide_eq_true (by simpa [IsSquare] using hsq)
    exact this
  unfold SquareRoot exp at *
  have hp : (fieldSize + 1) / 4 * 2 = (fieldSize - 1) / 2 + 1 := by decide
  calc (a ^ ((fieldSize + 1) / 4) % fieldSize) ^ 2 % fieldSize
      = a ^ ((fieldSize + 1) / 4 * 2) % fieldSize := by
        rw [← Nat.pow_mod, ← pow_mul]
    _ = a ^ ((fieldSize - 1) / 2 + 1) % fieldSize := by rw [hp]
    _ = (a ^ ((fieldSize - 1) / 2) % fieldSize) * a % fieldSize := by
        rw [pow_succ, Nat.mod_mul_mod]
    _ = a % fieldSize := by rw [h1, one_mul]
    _ = a := Nat.mod_eq_of_lt ha

/-- C7: `SquareRoot` returns the candidate `exp(a, (p+1)/4, p)`
unconditionally (no squareness check), and whenever `IsSquare a` holds for a
field element `a`, the candidate really is a square root: its square mod p
is `a`. -/
theorem SquareRoot_sound (a : Nat) :
    SquareRoot a = exp a ((fieldSize + 1) / 4) fieldSize ∧
    (a < fieldSize → IsSquare a = true →
      SquareRoot a ^ 2 % fieldSize = a) :=
  ⟨rfl, fun ha hsq => squareRoot_squares a ha hsq⟩

/-- C7 witness: `a = 1` is a square field element and the theorem applies to
it; its unconditional square-root candidate squares back to 1. -/
theorem SquareRoot_sound_witness :
    (1 < fieldSize ∧ IsSquare 1 = true) ∧
    (SquareRoot 1 = exp 1 ((fieldSize + 1) / 4) fieldSize ∧
      (1 < fieldSize → IsSquare 1 = true →
        SquareRoot 1 ^ 2 % fieldSize = 1)) := by
  have h1 : IsSquare 1 = true := by
    rw [IsSquare_eq_expMod]
    decide
  exact ⟨⟨by decide, h1⟩, SquareRoot_sound 1⟩

/-- C3 counterexample: `a = 0` is a field element (`0 ≤ 0 < fieldSize`), but
`IsSquare 0` and `IsSquare (fieldSize - 0)` are both `false` — Euler's
criterion evaluates to `0`, not `1`, on both — so the claimed inequality
fails at `a = 0`. -/
theorem IsSquare_flip_counterexample :
    (0:Nat) < fieldSize ∧ IsSquare 0 = IsSquare (fieldSize - 0) := by
  refine ⟨by decide, ?_⟩
  have e0 : IsSquare 0 = false := by
    rw [IsSquare_eq_expMod]
    decide
  have ep : IsSquare (fieldSize - 0) = false := by
    rw [IsSquare_eq_expMod]
    decide
  rw [e0, ep]

/-! ## Primality of `fieldSize`

Euler's criterion only constrains `a ^ ((p-1)/2)` to `±1` when `p` is prime,
so the quadratic-residue flip property needs the primality of the 256-bit
field prime.  It is established via `lucas_primality` with a Pratt
certificate chain; every modular power is evaluated through `expMod`. -/

theorem zmod_pow_eq_one_iff (n w e : Nat) (hn : 1 < n) (he : e < 2 ^ 256) :
    ((w : ZMod n) ^ e = 1) ↔ expMod n w e 256 = 1 := by
  have h0 : 0 < n := by omega
  rw [expMod_eq n h0 256 w e he]
  have hpow : ((w : ZMod n)) ^ e = ((w ^ e : ℕ) : ZMod n) := by push_cast; rfl
  have hone : (1 : ZMod n) = ((1 : ℕ) : ZMod n) := by push_cast; rfl
  rw [hpow, hone, ZMod.natCast_eq_natCast_iff', Nat.mod_eq_of_lt hn]

theorem lucas_cert (n w : Nat) (hn : 1 < n) (hfuel : n - 1 < 2 ^ 256)
    (h1 : expMod n w (n - 1) 256 = 1)
    (hd : ∀ q : Nat, q.Prime → q ∣ n - 1 → expMod n w ((n - 1) / q) 256 ≠ 1) :
    Nat.Prime n := by
  apply lucas_primality n (w : ZMod n)
  · exact (zmod_pow_eq_one_iff n w (n - 1) hn hfuel).mpr h1
  · intro q hq hdvd
    rw [Ne, zmod_pow_eq_one_iff n w ((n - 1) / q) hn
      (lt_of_le_of_lt (Nat.div_le_self _ _) hfuel)]
    exact hd q hq hdvd

/-- Pratt certificate step: `1206781` is prime (witness 10). -/
theorem prime_p1206781 : Nat.Prime 1206781 := by
  have hp2 : Nat.Prime 2 := by norm_num
  have hp3 : Nat.Prime 3 := by norm_num
  have hp5 : Nat.Prime 5 := by norm_num
  have hp20113 : Nat.Prime 20113 := by norm_num
  refine lucas_cert 1206781 10 (by norm_num) (by norm_num) (by decide) ?_
  intro q hq hdvd
  have hfac : (1206781 : Nat) - 1 = 2 ^ 2 * (3 * (5 * (20113))) := by norm_num
  rw [hfac] at hdvd
  have hcase : q = 2 ∨ q = 3 ∨ q = 5 ∨ q = 20113 := by
    rcases (Nat.Prime.dvd_mul hq).mp hdvd with h | hdvd
    · exact Or.inl ((Nat.prime_dvd_prime_iff_eq hq hp2).mp (Nat.Prime.dvd_of_dvd_pow hq h))
    rcases (Nat.Prime.dvd_mul hq).mp hdvd with h | hdvd
    · exact Or.inr (Or.inl ((Nat.prime_dvd_prime_iff_eq hq hp3).mp h))
    rcases (Nat.Prime.dvd_mul hq).mp hdvd with h | hdvd
    · exact Or.inr (Or.inr (Or.inl ((Nat.prime_dvd_prime_iff_eq hq hp5).mp h)))
    have h := hdvd
    exact Or.inr (Or.inr (Or.inr ((Nat.prime_dvd_prime_iff_eq hq hp20113).mp h)))
  rcases hcase with rfl | rfl | rfl | rfl
  · decide
  · decide
  · decide
  · decide

/-- Pratt certificate step: `7240687` is prime (witness 3). -/
theorem prime_p7240687 : Nat.Prime 7240687 := by
  have hp2 : Nat.Prime 2 := by norm_num
  have hp3 : Nat.Prime 3 := by norm_num
  have hp1206781 : Nat.Prime 1206781 := prime_p1206781
  refine lucas_cert 7240687 3 (by norm_num) (by norm_num) (by decide) ?_
  intro q hq hdvd
  have hfac : (7240687 : Nat) - 1 = 2 * (3 * (1206781)) := by norm_num
  rw [hfac] at hdvd
  have hcase : q = 2 ∨ q = 3 ∨ q = 1206781 := by
    rcases (Nat.Prime.dvd_mul hq).mp hdvd with h | hdvd
    · exact Or.inl ((Nat.prime_dvd_prime_iff_eq hq hp2).mp h)
    rcases (Nat.Prime.dvd_mul hq).mp hdvd with h | hdvd
    · exact Or.inr (Or.inl ((Nat.prime_dvd_prime_iff_eq hq hp3).mp h))
    have h := hdvd
    exact Or.inr (Or.inr ((Nat.prime_dvd_prime_iff_eq hq hp1206781).mp h))
  rcases hcase with rfl | rfl | rfl
  · decide
  · decide
  · decide

/-- Pratt certificate step: `13331831` is prime (witness 13). -/
theorem prime_p13331831 : Nat.Prime 13331831 := by
  have hp2 : Nat.Prime 2 := by norm_num
  have hp5 : Nat.Prime 5 := by norm_num
  have hp971 : Nat.Prime 971 := by norm_num
  have hp1373 : Nat.Prime 1373 := by norm_num
  refine lucas_cert 13331831 13 (by norm_num) (by norm_num) (by decide) ?_
  intro q hq hdvd
  have hfac : (13331831 : Nat) - 1 = 2 * (5 * (971 * (1373))) := by norm_num
  rw [hfac] at hdvd
  have hcase : q = 2 ∨ q = 5 ∨ q = 971 ∨ q = 1373 := by
    rcases (Nat.Prime.dvd_mul hq).mp hdvd with h | hdvd
    · exact Or.inl ((Nat.prime_dvd_prime_iff_eq hq hp2).mp h)
    rcases (Nat.Prime.dvd_mul hq).mp hdvd with h | hdvd
    · exact Or.inr (Or.inl ((Nat.prime_dvd_prime_iff_eq hq hp5).mp h))
    rcases (Nat.Prime.dvd_mul hq).mp hdvd with h | hdvd
    · exact Or.inr (Or.inr (Or.inl ((Nat.prime_dvd_prime_iff_eq hq hp971).mp h)))
    have h := hdvd
    exact Or.inr (Or.inr (Or.inr ((Nat.prime_dvd_prime_iff_eq hq hp1373).mp h)))
  rcases hcase with rfl | rfl | rfl | rfl
  · decide
  · decide
  · decide
  · decide

/-- Pratt certificate step: `107590001` is prime (witness 3). -/
theorem prime_p107590001 : Nat.Prime 107590001 := by
  have hp2 : Nat.Prime 2 := by norm_num
  have hp5 : Nat.Prime 5 := by norm_num
  have hp7 : Nat.Prime 7 := by norm_num
  have hp29 : Nat.Prime 29 := by norm_num
  have hp53 : Nat.Prime 53 := by norm_num
  refine lucas_cert 107590001 3 (by norm_num) (by norm_num) (by decide) ?_
  intro q hq hdvd
  have hfac : (107590001 : Nat) - 1 = 2 ^ 4 * (5 ^ 4 * (7 * (29 * (53)))) := by norm_num
  rw [hfac] at hdvd
  have hcase : q = 2 ∨ q = 5 ∨ q = 7 ∨ q = 29 ∨ q = 53 := by
    rcases (Nat.Prime.dvd_mul hq).mp hdvd with h | hdvd
    · exact Or.inl ((Nat.prime_dvd_prime_iff_eq hq hp2).mp (Nat.Prime.dvd_of_dvd_pow hq h))
    rcases (Nat.Prime.dvd_mul hq).mp hdvd with h | hdvd
    · exact Or.inr (Or.inl ((Nat.prime_dvd_prime_iff_eq hq hp5).mp (Nat.Prime.dvd_of_dvd_pow hq h)))
    rcases (Nat.Prime.dvd_mul hq).mp hdvd with h | hdvd
    · exact Or.inr (Or.inr (Or.inl ((Nat.prime_dvd_prime_iff_eq hq hp7).mp h)))
    rcases (Nat.Prime.dvd_mul hq).mp hdvd with h | hdvd
    · exact Or.inr (Or.inr (Or.inr (Or.inl ((Nat.prime_dvd_prime_iff_eq hq hp29).mp h))))
    have h := hdvd
    exact Or.inr (Or.inr (Or.inr (Or.inr ((Nat.prime_dvd_prime_iff_eq hq hp53).mp h))))
  rcases hcase with rfl | rfl | rfl | rfl | rfl
  · decide
  · decide
  · decide
  · decide
  · decide

/-- Pratt certificate step: `173378833005251801` is prime (witness 6). -/
theorem prime_p18 : Nat.Prime 173378833005251801 := by
  have hp2 : Nat.Prime 2 := by norm_num
  have hp5 : Nat.Prime 5 := by norm_num
  have hp2621 : Nat.Prime 2621 := by norm_num
  have hp24809 : Nat.Prime 24809 := by norm_num
  have hp13331831 : Nat.Prime 13331831 := prime_p13331831
  refine lucas_cert 173378833005251801 6 (by norm_num) (by norm_num) (by decide) ?_
  intro q hq hdvd
  have hfac : (173378833005251801 : Nat) - 1 = 2 ^ 3 * (5 ^ 2 * (2621 * (24809 * (13331831)))) := by norm_num
  rw [hfac] at hdvd
  have hcase : q = 2 ∨ q = 5 ∨ q = 2621 ∨ q = 24809 ∨ q = 13331831 := by
    rcases (Nat.Prime.dvd_mul hq).mp hdvd with h | hdvd
    · exact Or.inl ((Nat.prime_dvd_prime_iff_eq hq hp2).mp (Nat.Prime.dvd_of_dvd_pow hq h))
    rcases (Nat.Prime.dvd_mul hq).mp hdvd with h | hdvd
    · exact Or.inr (Or.inl ((Nat.prime_dvd_prime_iff_eq hq hp5).mp (Nat.Prime.dvd_of_dvd_pow hq h)))
    rcases (Nat.Prime.dvd_mul hq).mp hdvd with h | hdvd
    · exact Or.inr (Or.inr (Or.inl ((Nat.prime_dvd_prime_iff_eq hq hp2621).mp h)))
    rcases (Nat.Prime.dvd_mul hq).mp hdvd with h | hdvd
    · exact Or.inr (Or.inr (Or.inr (Or.inl ((Nat.prime_dvd_prime_iff_eq hq hp24809).mp h))))
    have h := hdvd
    exact Or.inr (Or.inr (Or.inr (Or.inr ((Nat.prime_dvd_prime_iff_eq hq hp13331831).mp h))))
  rcases hcase with rfl | rfl | rfl | rfl | rfl
  · decide
  · decide
  · decide
  · decide
  · decide

/-- Pratt certificate step: `22149492674086928081353` is prime (witness 5). -/
theorem prime_p23 : Nat.Prime 22149492674086928081353 := by
  have hp2 : Nat.Prime 2 := by norm_num
  have hp3 : Nat.Prime 3 := by norm_num
  have hp5323 : Nat.Prime 5323 := by norm_num
  have hp173378833005251801 : Nat.Prime 173378833005251801 := prime_p18
  refine lucas_cert 22149492674086928081353 5 (by norm_num) (by norm_num) (by decide) ?_
  intro q hq hdvd
  have hfac : (22149492674086928081353 : Nat) - 1 = 2 ^ 3 * (3 * (5323 * (173378833005251801))) := by norm_num
  rw [hfac] at hdvd
  have hcase : q = 2 ∨ q = 3 ∨ q = 5323 ∨ q = 173378833005251801 := by
    rcases (Nat.Prime.dvd_mul hq).mp hdvd with h | hdvd
    · exact Or.inl ((Nat.prime_dvd_prime_iff_eq hq hp2).mp (Nat.Prime.dvd_of_dvd_pow hq h))
    rcases (Nat.Prime.dvd_mul hq).mp hdvd with h | hdvd
    · exact Or.inr (Or.inl ((Nat.prime_dvd_prime_iff_eq hq hp3).mp h))
    rcases (Nat.Prime.dvd_mul hq).mp hdvd with h | hdvd
    · exact Or.inr (Or.inr (Or.inl ((Nat.prime_dvd_prime_iff_eq hq hp5323).mp h)))
    have h := hdvd
    exact Or.inr (Or.inr (Or.inr ((Nat.prime_dvd_prime_iff_eq hq hp173378833005251801).mp h)))
  rcases hcase with rfl | rfl | rfl | rfl
  · decide
  · decide
  · decide
  · decide

/-- Pratt certificate step: `132896956044521568488119` is prime (witness 6). -/
theorem prime_p24 : Nat.Prime 132896956044521568488119 := by
  have hp2 : Nat.Prime 2 := by norm_num
  have hp3 : Nat.Prime 3 := by norm_num
  have hp22149492674086928081353 : Nat.Prime 22149492674086928081353 := prime_p23
  refine lucas_cert 132896956044521568488119 6 (by norm_num) (by norm_num) (by decide) ?_
  intro q hq hdvd
  have hfac : (132896956044521568488119 : Nat) - 1 = 2 * (3 * (22149492674086928081353)) := by norm_num
  rw [hfac] at hdvd
  have hcase : q = 2 ∨ q = 3 ∨ q = 22149492674086928081353 := by
    rcases (Nat.Prime.dvd_mul hq).mp hdvd with h | hdvd
    · exact Or.inl ((Nat.prime_dvd_prime_iff_eq hq hp2).mp h)
    rcases (Nat.Prime.dvd_mul hq).mp hdvd with h | hdvd
    · exact Or.inr (Or.inl ((Nat.prime_dvd_prime_iff_eq hq hp3).mp h))
    have h := hdvd
    exact Or.inr (Or.inr ((Nat.prime_dvd_prime_iff_eq hq hp22149492674086928081353).mp h))
  rcases hcase with rfl | rfl | rfl
  · decide
  · decide
  · decide

/-- Pratt certificate step: `255515944373312847190720520512484175977` is prime (witness 3). -/
theorem prime_p39 : Nat.Prime 255515944373312847190720520512484175977 := by
  have hp2 : Nat.Prime 2 := by norm_num
  have hp7 : Nat.Prime 7 := by norm_num
  have hp11 : Nat.Prime 11 := by norm_num
  have hp1627 : Nat.Prime 1627 := by norm_num
  have hp2657 : Nat.Prime 2657 := by norm_num
  have hp4423 : Nat.Prime 4423 := by norm_num
  have hp41201 : Nat.Prime 41201 := by norm_num
  have hp96557 : Nat.Prime 96557 := by norm_num
  have hp7240687 : Nat.Prime 7240687 := prime_p7240687
  have hp107590001 : Nat.Prime 107590001 := prime_p107590001
  refine lucas_cert 255515944373312847190720520512484175977 3 (by norm_num) (by norm_num) (by decide) ?_
  intro q hq hdvd
  have hfac : (255515944373312847190720520512484175977 : Nat) - 1 = 2 ^ 3 * (7 ^ 2 * (11 * (1627 * (2657 * (4423 * (41201 * (96557 * (7240687 * (107590001))))))))) := by norm_num
  rw [hfac] at hdvd
  have hcase : q = 2 ∨ q = 7 ∨ q = 11 ∨ q = 1627 ∨ q = 2657 ∨ q = 4423 ∨ q = 41201 ∨ q = 96557 ∨ q = 7240687 ∨ q = 107590001 := by
    rcases (Nat.Prime.dvd_mul hq).mp hdvd with h | hdvd
    · exact Or.inl ((Nat.prime_dvd_prime_iff_eq hq hp2).mp (Nat.Prime.dvd_of_dvd_pow hq h))
    rcases (Nat.Prime.dvd_mul hq).mp hdvd with h | hdvd
    · exact Or.inr (Or.inl ((Nat.prime_dvd_prime_iff_eq hq hp7).mp (Nat.Prime.dvd_of_dvd_pow hq h)))
    rcases (Nat.Prime.dvd_mul hq).mp hdvd with h | hdvd
    · exact Or.inr (Or.inr (Or.inl ((Nat.prime_dvd_prime_iff_eq hq hp11).mp h)))
    rcases (Nat.Prime.dvd_mul hq).mp hdvd with h | hdvd
    · exact Or.inr (Or.inr (Or.inr (Or.inl ((Nat.prime_dvd_prime_iff_eq hq hp1627).mp h))))
    rcases (Nat.Prime.dvd_mul hq).mp hdvd with h | hdvd
    · exact Or.inr (Or.inr (Or.inr (Or.inr (Or.inl ((Nat.prime_dvd_prime_iff_eq hq hp2657).mp h)))))
    rcases (Nat.Prime.dvd_mul hq).mp hdvd with h | hdvd
    · exact Or.inr (Or.inr (Or.inr (Or.inr (Or.inr (Or.inl ((Nat.prime_dvd_prime_iff_eq hq hp4423).mp h))))))
    rcases (Nat.Prime.dvd_mul hq).mp hdvd with h | hdvd
    · exact Or.inr (Or.inr (Or.inr (Or.inr (Or.inr (Or.inr (Or.inl ((Nat.prime_dvd_prime_iff_eq hq hp41201).mp h)))))))
    rcases (Nat.Prime.dvd_mul hq).mp hdvd with h | hdvd
    · exact Or.inr (Or.inr (Or.inr (Or.inr (Or.inr (Or.inr (Or.inr (Or.inl ((Nat.prime_dvd_prime_iff_eq hq hp96557).mp h))))))))
    rcases (Nat.Prime.dvd_mul hq).mp hdvd with h | hdvd
    · exact Or.inr (Or.inr (Or.inr (Or.inr (Or.inr (Or.inr (Or.inr (Or.inr (Or.inl ((Nat.prime_dvd_prime_iff_eq hq hp7240687).mp h)))))))))
    have h := hdvd
    exact Or.inr (Or.inr (Or.inr (Or.inr (Or.inr (Or.inr (Or.inr (Or.inr (Or.inr ((Nat.prime_dvd_prime_iff_eq hq hp107590001).mp h)))))))))
  rcases hcase with rfl | rfl | rfl | rfl | rfl | rfl | rfl | rfl | rfl | rfl
  · decide
  · decide
  · decide
  · decide
  · decide
  · decide
  · decide
  · decide
  · decide
  · decide

/-- Pratt certificate step: `205115282021455665897114700593932402728804164701536103180137503955397371` is prime (witness 10). -/
theorem prime_p72 : Nat.Prime 205115282021455665897114700593932402728804164701536103180137503955397371 := by
  have hp2 : Nat.Prime 2 := by norm_num
  have hp3 : Nat.Prime 3 := by norm_num
  have hp5 : Nat.Prime 5 := by norm_num
  have hp29 : Nat.Prime 29 := by norm_num
  have hp31 : Nat.Prime 31 := by norm_num
  have hp7723 : Nat.Prime 7723 := by norm_num
  have hp132896956044521568488119 : Nat.Prime 132896956044521568488119 := prime_p24
  have hp255515944373312847190720520512484175977 : Nat.Prime 255515944373312847190720520512484175977 := prime_p39
  refine lucas_cert 205115282021455665897114700593932402728804164701536103180137503955397371 10 (by norm_num) (by norm_num) (by decide) ?_
  intro q hq hdvd
  have hfac : (205115282021455665897114700593932402728804164701536103180137503955397371 : Nat) - 1 = 2 * (3 * (5 * (29 ^ 2 * (31 * (7723 * (132896956044521568488119 * (255515944373312847190720520512484175977))))))) := by norm_num
  rw [hfac] at hdvd
  have hcase : q = 2 ∨ q = 3 ∨ q = 5 ∨ q = 29 ∨ q = 31 ∨ q = 7723 ∨ q = 132896956044521568488119 ∨ q = 255515944373312847190720520512484175977 := by
    rcases (Nat.Prime.dvd_mul hq).mp hdvd with h | hdvd
    · exact Or.inl ((Nat.prime_dvd_prime_iff_eq hq hp2).mp h)
    rcases (Nat.Prime.dvd_mul hq).mp hdvd with h | hdvd
    · exact Or.inr (Or.inl ((Nat.prime_dvd_prime_iff_eq hq hp3).mp h))
    rcases (Nat.Prime.dvd_mul hq).mp hdvd with h | hdvd
    · exact Or.inr (Or.inr (Or.inl ((Nat.prime_dvd_prime_iff_eq hq hp5).mp h)))
    rcases (Nat.Prime.dvd_mul hq).mp hdvd with h | hdvd
    · exact Or.inr (Or.inr (Or.inr (Or.inl ((Nat.prime_dvd_prime_iff_eq hq hp29).mp (Nat.Prime.dvd_of_dvd_pow hq h)))))
    rcases (Nat.Prime.dvd_mul hq).mp hdvd with h | hdvd
    · exact Or.inr (Or.inr (Or.inr (Or.inr (Or.inl ((Nat.prime_dvd_prime_iff_eq hq hp31).mp h)))))
    rcases (Nat.Prime.dvd_mul hq).mp hdvd with h | hdvd
    · exact Or.inr (Or.inr (Or.inr (Or.inr (Or.inr (Or.inl ((Nat.prime_dvd_prime_iff_eq hq hp7723).mp h))))))
    rcases (Nat.Prime.dvd_mul hq).mp hdvd with h | hdvd
    · exact Or.inr (Or.inr (Or.inr (Or.inr (Or.inr (Or.inr (Or.inl ((Nat.prime_dvd_prime_iff_eq hq hp132896956044521568488119).mp h)))))))
    have h := hdvd
    exact Or.inr (Or.inr (Or.inr (Or.inr (Or.inr (Or.inr (Or.inr ((Nat.prime_dvd_prime_iff_eq hq hp255515944373312847190720520512484175977).mp h)))))))
  rcases hcase with rfl | rfl | rfl | rfl | rfl | rfl | rfl | rfl
  · decide
  · decide
  · decide
  · decide
  · decide
  · decide
  · decide
  · decide

/-- Pratt certificate step: `115792089237316195423570985008687907853269984665640564039457584007908834671663` is prime (witness 3). -/
theorem prime_fieldSize : Nat.Prime 115792089237316195423570985008687907853269984665640564039457584007908834671663 := by
  have hp2 : Nat.Prime 2 := by norm_num
  have hp3 : Nat.Prime 3 := by norm_num
  have hp7 : Nat.Prime 7 := by norm_num
  have hp13441 : Nat.Prime 13441 := by norm_num
  have hp205115282021455665897114700593932402728804164701536103180137503955397371 : Nat.Prime 205115282021455665897114700593932402728804164701536103180137503955397371 := prime_p72
  refine lucas_cert 115792089237316195423570985008687907853269984665640564039457584007908834671663 3 (by norm_num) (by norm_num) (by decide) ?_
  intro q hq hdvd
  have hfac : (115792089237316195423570985008687907853269984665640564039457584007908834671663 : Nat) - 1 = 2 * (3 * (7 * (13441 * (205115282021455665897114700593932402728804164701536103180137503955397371)))) := by norm_num
  rw [hfac] at hdvd
  have hcase : q = 2 ∨ q = 3 ∨ q = 7 ∨ q = 13441 ∨ q = 205115282021455665897114700593932402728804164701536103180137503955397371 := by
    rcases (Nat.Prime.dvd_mul hq).mp hdvd with h | hdvd
    · exact Or.inl ((Nat.prime_dvd_prime_iff_eq hq hp2).mp h)
    rcases (Nat.Prime.dvd_mul hq).mp hdvd with h | hdvd
    · exact Or.inr (Or.inl ((Nat.prime_dvd_prime_iff_eq hq hp3).mp h))
    rcases (Nat.Prime.dvd_mul hq).mp hdvd with h | hdvd
    · exact Or.inr (Or.inr (Or.inl ((Nat.prime_dvd_prime_iff_eq hq hp7).mp h)))
    rcases (Nat.Prime.dvd_mul hq).mp hdvd with h | hdvd
    · exact Or.inr (Or.inr (Or.inr (Or.inl ((Nat.prime_dvd_prime_iff_eq hq hp13441).mp h))))
    have h := hdvd
    exact Or.inr (Or.inr (Or.inr (Or.inr ((Nat.prime_dvd_prime_iff_eq hq hp205115282021455665897114700593932402728804164701536103180137503955397371).mp h))))
  rcases hcase with rfl | rfl | rfl | rfl | rfl
  · decide
  · decide
  · decide
  · decide
  · decide

/-- The secp256k1 base-field modulus is prime. -/
theorem fieldSize_prime : Nat.Prime fieldSize := prime_fieldSize

/-- Bridge from the boolean Euler criterion to `ZMod fieldSize`. -/
theorem IsSquare_iff_zmod (x : Nat) :
    IsSquare x = true ↔ ((x : ZMod fieldSize) ^ ((fieldSize - 1) / 2) = 1) := by
  rw [IsSquare_eq_expMod x, beq_iff_eq]
  exact (zmod_pow_eq_one_iff fieldSize x ((fieldSize - 1) / 2)
    (by decide) (by decide)).symm

/-- C3 (amended): for every field element `a` with `0 < a < fieldSize`,
`IsSquare a ≠ IsSquare (fieldSize - a)`: negating a nonzero field element
flips quadratic-residue status, since `-1` is a non-residue mod this prime.
(The original claim also admitted `a = 0`, where both sides are `false`.) -/
theorem IsSquare_flip (a : Nat) (h0 : 0 < a) (ha : a < fieldSize) :
    IsSquare a ≠ IsSquare (fieldSize - a) := by
  haveI hfact : Fact (Nat.Prime fieldSize) := ⟨fieldSize_prime⟩
  haveI hfact2 : Fact (2 < fieldSize) := ⟨by decide⟩
  have hx : (a : ZMod fieldSize) ≠ 0 := by
    rw [Ne, ZMod.natCast_zmod_eq_zero_iff_dvd]
    intro hdvd
    exact absurd (Nat.le_of_dvd h0 hdvd) (by omega)
  have hcast : ((fieldSize - a : ℕ) : ZMod fieldSize) = - (a : ZMod fieldSize) := by
    have hle : a ≤ fieldSize := le_of_lt ha
    push_cast [hle]
    rw [ZMod.natCast_self]
    ring
  have hodd : Odd ((fieldSize - 1) / 2) := by
    rw [Nat.odd_iff]
    decide
  have h2e : (fieldSize - 1) / 2 + (fieldSize - 1) / 2 = fieldSize - 1 := by decide
  have hepow : (a : ZMod fieldSize) ^ ((fieldSize - 1) / 2) *
      (a : ZMod fieldSize) ^ ((fieldSize - 1) / 2) = 1 := by
    rw [← pow_add, h2e]
    exact ZMod.pow_card_sub_one_eq_one hx
  have hnegpow : ((fieldSize - a : ℕ) : ZMod fieldSize) ^ ((fieldSize - 1) / 2) =
      - ((a : ZMod fieldSize) ^ ((fieldSize - 1) / 2)) := by
    rw [hcast, Odd.neg_pow hodd]
  rcases mul_self_eq_one_iff.mp hepow with h1 | h1
  · have hA : IsSquare a = true := (IsSquare_iff_zmod a).mpr h1
    have hBne : ¬ ((fieldSize - a : ℕ) : ZMod fieldSize) ^ ((fieldSize - 1) / 2) = 1 := by
      rw [hnegpow, h1]
      exact ZMod.neg_one_ne_one
    have hB : IsSquare (fieldSize - a) = false := by
      cases hIsB : IsSquare (fieldSize - a) with
      | false => rfl
      | true => exact absurd ((IsSquare_iff_zmod _).mp hIsB) hBne
    rw [hA, hB]
    simp
  · have hAne : ¬ (a : ZMod fieldSize) ^ ((fieldSize - 1) / 2) = 1 := by
      rw [h1]
      exact ZMod.neg_one_ne_one
    have hA : IsSquare a = false := by
      cases hIsA : IsSquare a with
      | false => rfl
      | true => exact absurd ((IsSquare_iff_zmod _).mp hIsA) hAne
    have hB : IsSquare (fieldSize - a) = true := by
      apply (IsSquare_iff_zmod _).mpr
      rw [hnegpow, h1, neg_neg]
    rw [hA, hB]
    simp

/-- C3 witness: `a = 1` is in range and the flip property holds there. -/
theorem IsSquare_flip_witness :
    ((0:Nat) < 1 ∧ 1 < fieldSize) ∧ IsSquare 1 ≠ IsSquare (fieldSize - 1) :=
  ⟨⟨by decide, by decide⟩, IsSquare_flip 1 (by decide) (by decide)⟩

/-! ## Keccak-256

Modelled from the spec: `fieldHash` and all other hashing in the VRF core use
"the same primitive used by the target chain, e.g. keccak256" (§4.3).  The
permutation is implemented over `Nat` lanes (64-bit words, reduced mod
`2 ^ 64`); bytes are `Nat` values below 256.  Ethereum's Keccak-256 uses the
original multi-rate `0x01 … 0x80` padding with rate 136. -/

/-- Left-rotation of a 64-bit lane. -/
def rotl64 (x n : Nat) : Nat := x * 2 ^ n % 2 ^ 64 + x / 2 ^ (64 - n)

/-- Bitwise complement of a 64-bit lane. -/
def not64 (x : Nat) : Nat := Nat.xor x (2 ^ 64 - 1)

/-- Lane `i` of a 25-lane state (index `i = x + 5 * y`). -/
def lane (st : List Nat) (i : Nat) : Nat := st.getD i 0

/-- The θ step of the Keccak round: column parities. -/
def keccakTheta (st : List Nat) : List Nat :=
  let C := (List.range 5).map fun x =>
    Nat.xor (lane st x) (Nat.xor (lane st (x + 5))
      (Nat.xor (lane st (x + 10)) (Nat.xor (lane st (x + 15)) (lane st (x + 20)))))
  let D := (List.range 5).map fun x =>
    Nat.xor (C.getD ((x + 4) % 5) 0) (rotl64 (C.getD ((x + 1) % 5) 0) 1)
  (List.range 25).map fun i => Nat.xor (lane st i) (D.getD (i % 5) 0)

/-- Source index and rotation for each destination lane in the ρ/π steps. -/
def piSrc : List (Nat × Nat) :=
  [(0, 0), (6, 44), (12, 43), (18, 21), (24, 14), (3, 28), (9, 20), (10, 3),
   (16, 45), (22, 61), (1, 1), (7, 6), (13, 25), (19, 8), (20, 18), (4, 27),
   (5, 36), (11, 10), (17, 15), (23, 56), (2, 62), (8, 55), (14, 39), (15, 41),
   (21, 2)]

/-- The ρ and π steps: rotate and permute lanes. -/
def keccakRhoPi (st : List Nat) : List Nat :=
  piSrc.map fun sr => rotl64 (lane st sr.1) sr.2

/-- The χ step: nonlinear row mixing. -/
def keccakChi (st : List Nat) : List Nat :=
  (List.range 25).map fun j =>
    let x := j % 5
    let base := j - x
    Nat.xor (lane st j)
      (Nat.land (not64 (lane st (base + (x + 1) % 5))) (lane st (base + (x + 2) % 5)))

/-- The ι step: mix the round constant into lane 0. -/
def keccakIota (rc : Nat) (st : List Nat) : List Nat :=
  match st with
  | [] => []
  | a :: rest => Nat.xor a rc :: rest

/-- One Keccak-f[1600] round. -/
def keccakRound (st : List Nat) (rc : Nat) : List Nat :=
  keccakIota rc (keccakChi (keccakRhoPi (keccakTheta st)))

/-- The 24 round constants of Keccak-f[1600]. -/
def keccakRC : List Nat :=
  [0x1, 0x8082, 0x800000000000808a, 0x8000000080008000, 0x808b, 0x80000001,
   0x8000000080008081, 0x8000000000008009, 0x8a, 0x88, 0x80008009, 0x8000000a,
   0x8000808b, 0x800000000000008b, 0x8000000000008089, 0x8000000000008003,
   0x8000000000008002, 0x8000000000000080, 0x800a, 0x800000008000000a,
   0x8000000080008081, 0x8000000000008080, 0x80000001, 0x8000000080008008]

/-- The full Keccak-f[1600] permutation: 24 rounds. -/
def keccakP (st : List Nat) : List Nat := keccakRC.foldl keccakRound st

/-- Multi-rate padding (rate 136): append `0x01 … 0x80` (or a single `0x81`). -/
def keccakPad (msg : List Nat) : List Nat :=
  let plen := 136 - msg.length % 136
  if plen = 1 then msg ++ [0x81]
  else msg ++ 0x01 :: List.replicate (plen - 2) 0 ++ [0x80]

/-- A little-endian 8-byte lane read from a block at lane index `i`. -/
def laneOfBlock (block : List Nat) (i : Nat) : Nat :=
  ((block.drop (8 * i)).take 8).foldr (fun b acc => acc * 256 + b) 0

/-- XOR a 136-byte block into the first 17 lanes of the state. -/
def xorBlock (st block : List Nat) : List Nat :=
  (List.range 25).map fun i =>
    if i < 17 then Nat.xor (lane st i) (laneOfBlock block i) else lane st i

/-- Absorb the (padded) message block by block; `fuel` bounds the block count. -/
def keccakAbsorb (st : List Nat) (bytes : List Nat) : Nat → List Nat
  | 0 => st
  | fuel + 1 =>
      if bytes = [] then st
      else keccakAbsorb (keccakP (xorBlock st (bytes.take 136))) (bytes.drop 136) fuel

/-- Keccak-256 of a byte list: 32-byte digest. -/
def keccak256 (msg : List Nat) : List Nat :=
  let padded := keccakPad msg
  let st := keccakAbsorb (List.replicate 25 0) padded (padded.length / 136 + 1)
  (List.range 32).map fun i => lane st (i / 8) / 256 ^ (i % 8) % 256

/-! ## Curve point operations

Modelled from the spec (§4.2): affine and projective secp256k1 point
arithmetic, double-and-add scalar multiplication, and the on-curve test.
All arithmetic is `Nat` with explicit reduction mod `fieldSize`. -/

/-- Big-endian 32-byte encoding of a 256-bit word. -/
def beBytes32 (n : Nat) : List Nat :=
  (List.range 32).map fun i => n / 256 ^ (31 - i) % 256

/-- Big-endian 20-byte encoding of a 160-bit address value. -/
def beBytes20 (n : Nat) : List Nat :=
  (List.range 20).map fun i => n / 256 ^ (19 - i) % 256

/-- Big-endian byte-list to number. -/
def bytesToNat (l : List Nat) : Nat := l.foldl (fun acc b => acc * 256 + b) 0

/-- An affine secp256k1 point. -/
structure AffinePoint where
  x : Nat
  y : Nat
  deriving Repr, DecidableEq

/-- Modelled from the spec: `isOnCurve` checks `y² ≡ x³ + 7 (mod fieldSize)`
exactly (§4.2). -/
def isOnCurve (P : AffinePoint) : Bool :=
  P.y ^ 2 % fieldSize == (P.x ^ 3 + 7) % fieldSize

/-- Modelled from the spec: the secp256k1 `Generator` point (a process-wide
constant, §9). -/
def Generator : AffinePoint :=
  ⟨55066263022277343669578718895168534326250603453777594175500187360389116729240,
   32670510020758816978083085130507043184471273380659243275938904335757337482424⟩

/-- Subtraction mod `fieldSize`. -/
def fSub (a b : Nat) : Nat := (a + (fieldSize - b % fieldSize)) % fieldSize

/-- Modular inverse in the base field by Fermat's little theorem. -/
def fInv (a : Nat) : Nat := expMod fieldSize a (fieldSize - 2) 256

/-- A Jacobian-coordinate point `(X / Z², Y / Z³)`; `Z = 0` is the identity. -/
structure JacPoint where
  X : Nat
  Y : Nat
  Z : Nat
  deriving Repr, DecidableEq

/-- Jacobian doubling on `y² = x³ + 7`. -/
def jDbl (P : JacPoint) : JacPoint :=
  if P.Z = 0 ∨ P.Y = 0 then ⟨1, 1, 0⟩
  else
    let A := P.X * P.X % fieldSize
    let B := P.Y * P.Y % fieldSize
    let C := B * B % fieldSize
    let D := 2 * fSub ((P.X + B) * (P.X + B) % fieldSize) ((A + C) % fieldSize) % fieldSize
    let E := 3 * A % fieldSize
    let F := E * E % fieldSize
    let X3 := fSub F (2 * D % fieldSize)
    let Y3 := fSub (E * fSub D X3 % fieldSize) (8 * C % fieldSize)
    let Z3 := 2 * P.Y * P.Z % fieldSize
    ⟨X3, Y3, Z3⟩

/-- Jacobian addition (handles identities and the doubling case). -/
def jAdd (P Q : JacPoint) : JacPoint :=
  if P.Z = 0 then Q
  else if Q.Z = 0 then P
  else
    let Z1Z1 := P.Z * P.Z % fieldSize
    let Z2Z2 := Q.Z * Q.Z % fieldSize
    let U1 := P.X * Z2Z2 % fieldSize
    let U2 := Q.X * Z1Z1 % fieldSize
    let S1 := P.Y * Q.Z % fieldSize * Z2Z2 % fieldSize
    let S2 := Q.Y * P.Z % fieldSize * Z1Z1 % fieldSize
    if U1 = U2 then
      if S1 ≠ S2 then ⟨1, 1, 0⟩
      else jDbl P
    else
      let H := fSub U2 U1
      let I := 2 * H % fieldSize * (2 * H % fieldSize) % fieldSize
      let J := H * I % fieldSize
      let r := 2 * fSub S2 S1 % fieldSize
      let V := U1 * I % fieldSize
      let X3 := fSub (r * r % fieldSize) ((J + 2 * V % fieldSize) % fieldSize)
      let Y3 := fSub (r * fSub V X3 % fieldSize) (2 * S1 % fieldSize * J % fieldSize)
      let Z3 := 2 * P.Z % fieldSize * Q.Z % fieldSize * H % fieldSize
      ⟨X3, Y3, Z3⟩

/-- Affine to Jacobian. -/
def toJac (P : AffinePoint) : JacPoint := ⟨P.x, P.y, 1⟩

/-- Jacobian to affine (identity maps to the `(0, 0)` marker). -/
def toAffine (P : JacPoint) : AffinePoint :=
  if P.Z = 0 then ⟨0, 0⟩
  else
    let zi := fInv P.Z
    ⟨P.X * zi % fieldSize * zi % fieldSize,
     P.Y * zi % fieldSize * zi % fieldSize * zi % fieldSize⟩

/-- The 256 bits of a scalar, most significant first. -/
def natBits (k : Nat) : List Nat :=
  (List.range 256).map fun i => k / 2 ^ (255 - i) % 2

/-- Double-and-add loop over a most-significant-first bit list: double the
accumulator at every bit and add the base point `P` at the set bits. -/
def mulBits (P : JacPoint) : JacPoint → List Nat → JacPoint
  | acc, [] => acc
  | acc, b :: bs => mulBits P (if b = 1 then jAdd (jDbl acc) P else jDbl acc) bs

/-- Modelled from the spec: `scalarMul(scalar, point)` by double-and-add
(§4.2). -/
def scalarMul (k : Nat) (P : AffinePoint) : AffinePoint :=
  toAffine (mulBits (toJac P) ⟨1, 1, 0⟩ (natBits k))

/-- Affine point addition through Jacobian coordinates. -/
def pointAdd (P Q : AffinePoint) : AffinePoint :=
  toAffine (jAdd (toJac P) (toJac Q))

/-- Modelled from the spec: `projectiveAdd(p, q)` in homogeneous projective
coordinates with both inputs affine (`Z = 1`), mirroring the on-chain
verifier (§4.2); returns the projective triple `(X, Y, Z)`. -/
def ProjectiveECAdd (P Q : AffinePoint) : Nat × Nat × Nat :=
  if P.x = Q.x ∧ P.y = Q.y then
    let W := 3 * (P.x * P.x % fieldSize) % fieldSize
    let S := P.y
    let B := P.x * P.y % fieldSize * S % fieldSize
    let H := fSub (W * W % fieldSize) (8 * B % fieldSize)
    let X3 := 2 * H % fieldSize * S % fieldSize
    let Y3 := fSub (W * fSub (4 * B % fieldSize) H % fieldSize)
      (8 * (P.y * P.y % fieldSize) % fieldSize * (S * S % fieldSize) % fieldSize)
    let Z3 := 8 * (S * S % fieldSize * S % fieldSize) % fieldSize
    (X3, Y3, Z3)
  else
    let u := fSub Q.y P.y
    let v := fSub Q.x P.x
    let v2 := v * v % fieldSize
    let v3 := v2 * v % fieldSize
    let A := fSub (fSub (u * u % fieldSize) v3) (2 * (v2 * P.x % fieldSize) % fieldSize)
    (v * A % fieldSize,
     fSub (u * fSub (v2 * P.x % fieldSize) A % fieldSize) (v3 * P.y % fieldSize),
     v3)

/-! ## The VRF proof engine and codec

Modelled from the spec (§4.3-§4.6); the implementing Go file is absent from
the sample, only its cross-check tests are present.  The error taxonomy
follows §7 and the revert reasons quoted in the tests. -/

/-- The error taxonomy of the VRF core (§7), including the verifier's revert
reasons in their on-chain wording. -/
inductive VRFError where
  /-- secret scalar out of range -/
  | InvalidKey
  /-- hash-to-curve retry budget exceeded -/
  | HashToCurveExhausted
  /-- wire decode length mismatch -/
  | MalformedProof
  /-- "public key is not on curve" -/
  | PubkeyNotOnCurve
  /-- "gamma is not on curve" -/
  | GammaNotOnCurve
  /-- "cGammaWitness is not on curve" -/
  | CGammaWitnessNotOnCurve
  /-- "sHashWitness is not on curve" -/
  | SHashWitnessNotOnCurve
  /-- "invZ must be inverse of z" -/
  | InvZMustBeInverseOfZ
  /-- "First multiplication check failed" -/
  | FirstMulCheckFailed
  /-- "Second multiplication check failed" -/
  | SecondMulCheckFailed
  /-- "addr(c*pk+s*g)≠_uWitness" -/
  | AddressMismatch
  /-- re-derived challenge differs from the supplied one -/
  | ChallengeMismatch
  deriving Repr, DecidableEq

/-- Modelled from the spec: `LongMarshal` — the uncompressed 64-byte
`x ‖ y` serialization of a point. -/
def LongMarshal (P : AffinePoint) : List Nat := beBytes32 P.x ++ beBytes32 P.y

/-- Modelled from the spec: the Ethereum-style address of a point — the low
20 bytes of `keccak256(LongMarshal point)` (Glossary: uWitness). -/
def EthereumAddress (P : AffinePoint) : Nat :=
  bytesToNat ((keccak256 (LongMarshal P)).drop 12)

/-- Modelled from the spec: `fieldHash(bytes)` — keccak256 reduced into the
base field (§4.3). -/
def fieldHash (msg : List Nat) : Nat := bytesToNat (keccak256 msg) % fieldSize

/-- The hash-to-curve retry loop (§4.3): candidate `x` from the field hash of
`serialize(publicKey) ‖ serialize(input) ‖ counter`; stop at the first `x`
whose `x³ + 7` is a square. -/
def hashToCurveAux (pk : AffinePoint) (input : Nat) : Nat → Nat → Except VRFError AffinePoint
  | _, 0 => Except.error VRFError.HashToCurveExhausted
  | counter, fuel + 1 =>
      let x := fieldHash (LongMarshal pk ++ beBytes32 input ++ beBytes32 counter)
      let ySq := YSquared x
      if IsSquare ySq then Except.ok ⟨x, SquareRoot ySq⟩
      else hashToCurveAux pk input (counter + 1) fuel

/-- Modelled from the spec: `hashToCurve(publicKey, input)` with the bounded
attempt count of `2 ^ 8` (§4.3, §9), failing with `HashToCurveExhausted`
instead of looping forever. -/
def HashToCurve (pk : AffinePoint) (input : Nat) : Except VRFError AffinePoint :=
  hashToCurveAux pk input 0 256

/-- Modelled from the spec: `scalarFromCurvePoints(hash, pk, gamma, uWitness,
v)` — the five inputs serialized in this fixed order, hashed, and reduced
into the scalar field (§4.4). -/
def ScalarFromCurvePoints (hpt pk gamma : AffinePoint) (uWitness : Nat)
    (v : AffinePoint) : Nat :=
  bytesToNat (keccak256 (LongMarshal hpt ++ LongMarshal pk ++ LongMarshal gamma ++
    beBytes20 uWitness ++ LongMarshal v)) % GroupOrder

/-- A VRF proof (§3 data model). -/
structure Proof where
  PublicKey : AffinePoint
  Gamma : AffinePoint
  C : Nat
  S : Nat
  Seed : Nat
  Output : Nat
  deriving Repr, DecidableEq

/-- The body of proof generation once the hash point is found (§4.5):
`gamma = sk·h`, commitments `u = nonce·G`, `v = nonce·h`, the Fiat–Shamir
challenge from the transcript, and `s = nonce - c·sk mod groupOrder`. -/
def proofFromHashPoint (secretKey seed nonce : Nat) (pk h : AffinePoint) : Proof :=
  let gamma := scalarMul secretKey h
  let u := scalarMul nonce Generator
  let v := scalarMul nonce h
  let c := ScalarFromCurvePoints h pk gamma (EthereumAddress u) v
  let s := (nonce % GroupOrder + (GroupOrder - c * secretKey % GroupOrder)) % GroupOrder
  ⟨pk, gamma, c, s, seed, bytesToNat (keccak256 (LongMarshal gamma))⟩

/-- Modelled from the spec: proof generation (§4.5) given secret scalar, seed
and caller-supplied nonce.  Fails with `InvalidKey` when
`secretKey ≥ groupOrder` and propagates `HashToCurveExhausted`. -/
def generateProofWithNonce (secretKey seed nonce : Nat) : Except VRFError Proof :=
  if GroupOrder ≤ secretKey then Except.error VRFError.InvalidKey
  else
    let pk := scalarMul secretKey Generator
    (HashToCurve pk seed).map (proofFromHashPoint secretKey seed nonce pk)

/-- The wire-level proof consumed by the on-chain verifier (§4.6). -/
structure SolidityProof where
  PublicKey : AffinePoint
  Gamma : AffinePoint
  C : Nat
  S : Nat
  Seed : Nat
  UWitness : Nat
  CGammaWitness : AffinePoint
  SHashWitness : AffinePoint
  ZInv : Nat
  deriving Repr, DecidableEq

/-- The marshaller's precomputed witnesses given the hash point:
`uWitness = addr(c·pk + s·G)`, the two product witnesses, and the inverse of
the projective `Z` of their sum (§4.5-§4.6). -/
def solidityPrecalcFromHash (p : Proof) (h : AffinePoint) : SolidityProof :=
  let uW := EthereumAddress
    (pointAdd (scalarMul p.C p.PublicKey) (scalarMul p.S Generator))
  let cG := scalarMul p.C p.Gamma
  let sH := scalarMul p.S h
  let prj := ProjectiveECAdd cG sH
  ⟨p.PublicKey, p.Gamma, p.C, p.S, p.Seed, uW, cG, sH, fInv prj.2.2⟩

/-- The witnesses the marshaller precomputes for the on-chain verifier
(§4.5-§4.6). -/
def SolidityPrecalculations (p : Proof) : Except VRFError SolidityProof :=
  (HashToCurve p.PublicKey p.Seed).map (solidityPrecalcFromHash p)

/-- Modelled from the spec: the fixed 416-byte wire layout (§4.6) —
`pk ‖ gamma ‖ c ‖ s ‖ seed ‖ uWitness-word ‖ cGammaWitness ‖ sHashWitness ‖
zInv`, the uWitness value right-aligned in its 32-byte word. -/
def MarshalForSolidityVerifier (p : Proof) : Except VRFError (List Nat) :=
  match SolidityPrecalculations p with
  | Except.error e => Except.error e
  | Except.ok sp =>
      Except.ok (beBytes32 sp.PublicKey.x ++ beBytes32 sp.PublicKey.y ++
        beBytes32 sp.Gamma.x ++ beBytes32 sp.Gamma.y ++
        beBytes32 sp.C ++ beBytes32 sp.S ++ beBytes32 sp.Seed ++
        beBytes32 sp.UWitness ++
        beBytes32 sp.CGammaWitness.x ++ beBytes32 sp.CGammaWitness.y ++
        beBytes32 sp.SHashWitness.x ++ beBytes32 sp.SHashWitness.y ++
        beBytes32 sp.ZInv)

/-- The 32-byte word at index `i` of a marshaled proof, as a number. -/
def proofWord (b : List Nat) (i : Nat) : Nat := bytesToNat ((b.drop (32 * i)).take 32)

/-- Modelled from the spec: `decode(bytes)` (§4.6) — fails with
`MalformedProof` on a length mismatch; the uWitness is read from the low 20
bytes of its word (bytes 236-255), the high 12 bytes being don't-care. -/
def decodeSolidityProof (b : List Nat) : Except VRFError SolidityProof :=
  if b.length = 416 then
    Except.ok ⟨⟨proofWord b 0, proofWord b 1⟩, ⟨proofWord b 2, proofWord b 3⟩,
      proofWord b 4, proofWord b 5, proofWord b 6,
      bytesToNat ((b.drop 236).take 20),
      ⟨proofWord b 8, proofWord b 9⟩, ⟨proofWord b 10, proofWord b 11⟩,
      proofWord b 12⟩
  else Except.error VRFError.MalformedProof

/-- The verifier's checks past the on-curve tests, given the re-derived hash
point (§4.5, checks 3-5 plus the challenge re-derivation). -/
def verifyWithHashPoint (sp : SolidityProof) (h : AffinePoint) : Except VRFError Nat :=
  let prj := ProjectiveECAdd sp.CGammaWitness sp.SHashWitness
  if prj.2.2 * sp.ZInv % fieldSize ≠ 1 then
    Except.error VRFError.InvZMustBeInverseOfZ
  else if scalarMul sp.C sp.Gamma ≠ sp.CGammaWitness then
    Except.error VRFError.FirstMulCheckFailed
  else if scalarMul sp.S h ≠ sp.SHashWitness then
    Except.error VRFError.SecondMulCheckFailed
  else if EthereumAddress
      (pointAdd (scalarMul sp.C sp.PublicKey) (scalarMul sp.S Generator))
      ≠ sp.UWitness then
    Except.error VRFError.AddressMismatch
  else
    let v : AffinePoint :=
      ⟨prj.1 * sp.ZInv % fieldSize, prj.2.1 * sp.ZInv % fieldSize⟩
    if ScalarFromCurvePoints h sp.PublicKey sp.Gamma sp.UWitness v ≠ sp.C then
      Except.error VRFError.ChallengeMismatch
    else Except.ok (bytesToNat (keccak256 (LongMarshal sp.Gamma)))

/-- Modelled from the spec: proof verification (§4.5) over a wire-decoded
proof — the short-circuiting ordered check sequence, first failure reported;
on success returns the VRF output `keccak256(LongMarshal gamma)`. -/
def verifySolidityProof (sp : SolidityProof) : Except VRFError Nat :=
  if isOnCurve sp.PublicKey = false then Except.error VRFError.PubkeyNotOnCurve
  else if isOnCurve sp.Gamma = false then Except.error VRFError.GammaNotOnCurve
  else if isOnCurve sp.CGammaWitness = false then
    Except.error VRFError.CGammaWitnessNotOnCurve
  else if isOnCurve sp.SHashWitness = false then
    Except.error VRFError.SHashWitnessNotOnCurve
  else
    (HashToCurve sp.PublicKey sp.Seed).bind (verifyWithHashPoint sp)

instance instDecEqExcept {ε α : Type} [DecidableEq ε] [DecidableEq α] :
    DecidableEq (Except ε α) := fun x y =>
  match x, y with
  | Except.error a, Except.error b =>
      if h : a = b then isTrue (by rw [h])
      else isFalse (fun hh => h (by injection hh))
  | Except.ok a, Except.ok b =>
      if h : a = b then isTrue (by rw [h])
      else isFalse (fun hh => h (by injection hh))
  | Except.error _, Except.ok _ => isFalse (fun hh => by injection hh)
  | Except.ok _, Except.error _ => isFalse (fun hh => by injection hh)

/-- Decode a marshaled proof blob and verify it (the on-chain
`randomValueFromVRFProof` entry point). -/
def randomValueFromVRFProof (b : List Nat) : Except VRFError Nat :=
  match decodeSolidityProof b with
  | Except.error e => Except.error e
  | Except.ok sp => verifySolidityProof sp

/-! ## The randomness-request data model

Modelled from the spec (§4.7); the implementing Go file is absent from the
sample. -/

/-- The parsed on-chain randomness request event (§3, §4.7). -/
structure RandomnessRequestLog where
  KeyHash : List Nat
  Seed : Nat
  Sender : Nat
  Fee : Nat
  JobID : List Nat
  deriving Repr, DecidableEq

/-- Modelled from the spec: `requestID() = keccak256(KeyHash ‖
bigEndian256(Seed))` (§4.7). -/
def RequestID (log : RandomnessRequestLog) : List Nat :=
  keccak256 (log.KeyHash ++ beBytes32 log.Seed)

/-- Modelled from the spec: the emitting contract's `MakeRequestId` test
fixture computes `keccak256(keyHash ‖ seed-as-uint256)` from the same inputs
(§4.7). -/
def MakeRequestId (keyHash : List Nat) (seed : Nat) : List Nat :=
  keccak256 (keyHash ++ beBytes32 seed)

/-! ## Theorems about hash-to-curve, the request id, and the wire codec -/

/-- Evaluation bridge for `SquareRoot` via square-and-multiply. -/
theorem SquareRoot_eq_expMod (a : Nat) :
    SquareRoot a = expMod fieldSize a ((fieldSize + 1) / 4) 256 := by
  unfold SquareRoot exp
  rw [expMod_eq fieldSize (by decide) 256 a ((fieldSize + 1) / 4) (by decide)]

theorem hashToCurveAux_step (pk : AffinePoint) (input counter fuel : Nat) :
    hashToCurveAux pk input counter (fuel + 1) =
      if IsSquare (YSquared
          (fieldHash (LongMarshal pk ++ beBytes32 input ++ beBytes32 counter))) then
        Except.ok (⟨fieldHash (LongMarshal pk ++ beBytes32 input ++ beBytes32 counter),
          SquareRoot (YSquared
            (fieldHash (LongMarshal pk ++ beBytes32 input ++ beBytes32 counter)))⟩
          : AffinePoint)
      else hashToCurveAux pk input (counter + 1) fuel := rfl

theorem except_map_ok {α β ε : Type} (f : α → β) (x : α) :
    Except.map f (Except.ok x : Except ε α) = Except.ok (f x) := rfl

theorem except_bind_ok {α β ε : Type} (f : α → Except ε β) (x : α) :
    Except.bind (Except.ok x : Except ε α) f = f x := rfl

theorem mulBits_append (P : JacPoint) :
    ∀ (l1 l2 : List Nat) (acc : JacPoint),
      mulBits P acc (l1 ++ l2) = mulBits P (mulBits P acc l1) l2 := by
  intro l1
  induction l1 with
  | nil => intro l2 acc; rfl
  | cons b bs ih =>
    intro l2 acc
    rw [List.cons_append]
    show mulBits P (if b = 1 then jAdd (jDbl acc) P else jDbl acc) (bs ++ l2) = _
    exact ih l2 _

theorem hashToCurveAux_succ (pk : AffinePoint) (input counter fuel : Nat) :
    hashToCurveAux pk input counter (fuel + 1) =
      (let x := fieldHash (LongMarshal pk ++ beBytes32 input ++ beBytes32 counter)
       let ySq := YSquared x
       if IsSquare ySq then Except.ok (⟨x, SquareRoot ySq⟩ : AffinePoint)
       else hashToCurveAux pk input (counter + 1) fuel) := rfl

theorem sqrt_onCurve (x : Nat) (hsq : IsSquare (YSquared x) = true) :
    isOnCurve ⟨x, SquareRoot (YSquared x)⟩ = true := by
  unfold isOnCurve
  have hlt : YSquared x < fieldSize := by
    unfold YSquared
    exact Nat.mod_lt _ (by decide)
  have h := squareRoot_squares (YSquared x) hlt hsq
  show (SquareRoot (YSquared x) ^ 2 % fieldSize == (x ^ 3 + 7) % fieldSize) = true
  rw [h]
  show (YSquared x == YSquared x) = true
  simp

theorem hashToCurveAux_sound (pk : AffinePoint) (input : Nat) :
    ∀ (fuel counter : Nat),
      hashToCurveAux pk input counter fuel =
        Except.error VRFError.HashToCurveExhausted ∨
      ∃ P, hashToCurveAux pk input counter fuel = Except.ok P ∧
        isOnCurve P = true := by
  intro fuel
  induction fuel with
  | zero => intro c; exact Or.inl rfl
  | succ n ih =>
    intro c
    rw [hashToCurveAux_succ]
    by_cases hsq :
        IsSquare (YSquared (fieldHash (LongMarshal pk ++ beBytes32 input ++ beBytes32 c)))
        = true
    · refine Or.inr ⟨_, ?_, sqrt_onCurve _ hsq⟩
      simp only [hsq, if_true]
    · have hsq' : IsSquare
          (YSquared (fieldHash (LongMarshal pk ++ beBytes32 input ++ beBytes32 c)))
          = false := by
        cases hb : IsSquare
            (YSquared (fieldHash (LongMarshal pk ++ beBytes32 input ++ beBytes32 c)))
        · rfl
        · exact absurd hb hsq
      simp only [hsq', if_false]
      exact ih (c + 1)

/-- C4: for every public key and every input, `hashToCurve` terminates — it
either returns an on-curve point within the bounded number (256) of counter
increments, or fails with `HashToCurveExhausted`; it never loops forever. -/
theorem HashToCurve_terminates (pk : AffinePoint) (input : Nat) :
    HashToCurve pk input = Except.error VRFError.HashToCurveExhausted ∨
    ∃ P, HashToCurve pk input = Except.ok P ∧ isOnCurve P = true :=
  hashToCurveAux_sound pk input 256 0

/-- C5: `RequestID` is `keccak256(KeyHash ‖ bigEndian256(Seed))` for every
log, hence agrees with the emitting contract's `MakeRequestId` on the same
inputs; at `keyHash = 0x01` (left-padded) and `seed = 1` it is the concrete
digest `keccak256(0x00…01 ‖ 0x00…01)`. -/
theorem RequestID_matches (log : RandomnessRequestLog) :
    RequestID log = keccak256 (log.KeyHash ++ beBytes32 log.Seed) ∧
    RequestID log = MakeRequestId log.KeyHash log.Seed ∧
    RequestID ⟨beBytes32 1, 1, 0, 0, []⟩ =
      [0xcc, 0x69, 0x88, 0x5f, 0xda, 0x6b, 0xcc, 0x1a, 0x4a, 0xce, 0x05, 0x8b,
       0x4a, 0x62, 0xbf, 0x5e, 0x17, 0x9e, 0xa7, 0x8f, 0xd5, 0x8a, 0x1c, 0xcd,
       0x71, 0xc2, 0x2c, 0xc9, 0xb6, 0x88, 0x79, 0x2f] ∧
    MakeRequestId (beBytes32 1) 1 =
      [0xcc, 0x69, 0x88, 0x5f, 0xda, 0x6b, 0xcc, 0x1a, 0x4a, 0xce, 0x05, 0x8b,
       0x4a, 0x62, 0xbf, 0x5e, 0x17, 0x9e, 0xa7, 0x8f, 0xd5, 0x8a, 0x1c, 0xcd,
       0x71, 0xc2, 0x2c, 0xc9, 0xb6, 0x88, 0x79, 0x2f] := by
  refine ⟨rfl, rfl, ?_, ?_⟩ <;> decide

theorem slice_agree (b b' : List Nat) (hb : b.length = 416) (hb' : b'.length = 416)
    (hagree : ∀ i, i < 416 → (i < 224 ∨ 236 ≤ i) → b.getD i 0 = b'.getD i 0)
    (k m : Nat) (hkm : k + m ≤ 416) (hreg : k + m ≤ 224 ∨ 236 ≤ k) :
    (b.drop k).take m = (b'.drop k).take m := by
  apply List.ext_getElem
  · simp [List.length_take, List.length_drop, hb, hb']
  · intro j hj hj'
    have hjm : j < m := by
      simp [List.length_take, List.length_drop, hb] at hj
      omega
    have hkj : k + j < 416 := by omega
    have hkjb : k + j < b.length := by omega
    have hkjb' : k + j < b'.length := by omega
    rw [List.getElem_take, List.getElem_drop, List.getElem_take, List.getElem_drop]
    have := hagree (k + j) hkj (by omega)
    rwa [List.getD_eq_getElem b 0 hkjb, List.getD_eq_getElem b' 0 hkjb'] at this

/-- C2: the high-12-byte padding of the uWitness word (bytes 224-235) is
ignored: two 416-byte proof blobs that agree everywhere outside that region
decode to the same proof and verify with the same outcome — so corrupting a
bit strictly inside the padding of a valid blob still decodes and verifies
successfully. -/
theorem uWitness_padding_ignored (b b' : List Nat)
    (hb : b.length = 416) (hb' : b'.length = 416)
    (hagree : ∀ i, i < 416 → (i < 224 ∨ 236 ≤ i) → b.getD i 0 = b'.getD i 0) :
    decodeSolidityProof b = decodeSolidityProof b' ∧
    randomValueFromVRFProof b = randomValueFromVRFProof b' := by
  have hslice : ∀ k m : Nat, k + m ≤ 416 → (k + m ≤ 224 ∨ 236 ≤ k) →
      (b.drop k).take m = (b'.drop k).take m :=
    fun k m h1 h2 => slice_agree b b' hb hb' hagree k m h1 h2
  have hword : ∀ i : Nat, i ≤ 6 ∨ 8 ≤ i ∧ i ≤ 12 → proofWord b i = proofWord b' i := by
    intro i hi
    unfold proofWord
    rcases hi with h | ⟨h8, h12⟩
    · rw [hslice (32 * i) 32 (by omega) (by omega)]
    · rw [hslice (32 * i) 32 (by omega) (by omega)]
  have huw : bytesToNat ((b.drop 236).take 20) = bytesToNat ((b'.drop 236).take 20) := by
    rw [hslice 236 20 (by omega) (by omega)]
  have hdec : decodeSolidityProof b = decodeSolidityProof b' := by
    unfold decodeSolidityProof
    rw [hb, hb']
    simp only [if_pos rfl]
    rw [hword 0 (by omega), hword 1 (by omega), hword 2 (by omega),
      hword 3 (by omega), hword 4 (by omega), hword 5 (by omega),
      hword 6 (by omega), hword 8 (by omega), hword 9 (by omega),
      hword 10 (by omega), hword 11 (by omega), hword 12 (by omega), huw]
  refine ⟨hdec, ?_⟩
  unfold randomValueFromVRFProof
  rw [hdec]

/-- C2 witness: a 416-byte blob and its padding-corrupted variant (byte 230,
inside the don't-care region, bumped) decode identically and verify with the
same outcome. -/
theorem uWitness_padding_ignored_witness :
    ((List.replicate 416 1).length = 416 ∧
      ((List.replicate 416 1).set 230 2).length = 416) ∧
    decodeSolidityProof (List.replicate 416 1) =
      decodeSolidityProof ((List.replicate 416 1).set 230 2) ∧
    randomValueFromVRFProof (List.replicate 416 1) =
      randomValueFromVRFProof ((List.replicate 416 1).set 230 2) := by
  have hlen : (List.replicate 416 (1:Nat)).length = 416 := by simp
  have hlen2 : ((List.replicate 416 (1:Nat)).set 230 2).length = 416 := by simp
  have hagree : ∀ i, i < 416 → (i < 224 ∨ 236 ≤ i) →
      (List.replicate 416 (1:Nat)).getD i 0 =
      ((List.replicate 416 (1:Nat)).set 230 2).getD i 0 := by
    intro i _ hreg
    have hne : (230:Nat) ≠ i := by omega
    rw [List.getD_eq_getElem?_getD, List.getD_eq_getElem?_getD,
      List.getElem?_set_ne hne]
  exact ⟨⟨hlen, hlen2⟩,
    uWitness_padding_ignored (List.replicate 416 1)
      ((List.replicate 416 1).set 230 2) hlen hlen2 hagree⟩

/-! ## Concrete evaluation of the end-to-end scenario (claim C6):
`secretKey = 1`, `seed = 2`, `nonce = 1`.  Every scalar multiplication is
evaluated in 16-bit ladder chunks; every hash by direct kernel
computation. -/

theorem ev_bits_oneG : natBits 1 = [0, 0, 0, 0, 0, 0, 0, 0, 0, 0, 0, 0, 0, 0, 0, 0] ++ ([0, 0, 0, 0, 0, 0, 0, 0, 0, 0, 0, 0, 0, 0, 0, 0] ++ ([0, 0, 0, 0, 0, 0, 0, 0, 0, 0, 0, 0, 0, 0, 0, 0] ++ ([0, 0, 0, 0, 0, 0, 0, 0, 0, 0, 0, 0, 0, 0, 0, 0] ++ ([0, 0, 0, 0, 0, 0, 0, 0, 0, 0, 0, 0, 0, 0, 0, 0] ++ ([0, 0, 0, 0, 0, 0, 0, 0, 0, 0, 0, 0, 0, 0, 0, 0] ++ ([0, 0, 0, 0, 0, 0, 0, 0, 0, 0, 0, 0, 0, 0, 0, 0] ++ ([0, 0, 0, 0, 0, 0, 0, 0, 0, 0, 0, 0, 0, 0, 0, 0] ++ ([0, 0, 0, 0, 0, 0, 0, 0, 0, 0, 0, 0, 0, 0, 0, 0] ++ ([0, 0, 0, 0, 0, 0, 0, 0, 0, 0, 0, 0, 0, 0, 0, 0] ++ ([0, 0, 0, 0, 0, 0, 0, 0, 0, 0, 0, 0, 0, 0, 0, 0] ++ ([0, 0, 0, 0, 0, 0, 0, 0, 0, 0, 0, 0, 0, 0, 0, 0] ++ ([0, 0, 0, 0, 0, 0, 0, 0, 0, 0, 0, 0, 0, 0, 0, 0] ++ ([0, 0, 0, 0, 0, 0, 0, 0, 0, 0, 0, 0, 0, 0, 0, 0] ++ ([0, 0, 0, 0, 0, 0, 0, 0, 0, 0, 0, 0, 0, 0, 0, 0] ++ ([0, 0, 0, 0, 0, 0, 0, 0, 0, 0, 0, 0, 0, 0, 0, 1]))))))))))))))) := by decide

theorem ev_ch_oneG_0 : mulBits (⟨55066263022277343669578718895168534326250603453777594175500187360389116729240, 32670510020758816978083085130507043184471273380659243275938904335757337482424, 1⟩ : JacPoint) (⟨1, 1, 0⟩ : JacPoint) [0, 0, 0, 0, 0, 0, 0, 0, 0, 0, 0, 0, 0, 0, 0, 0] = (⟨1, 1, 0⟩ : JacPoint) := by decide

theorem ev_ch_oneG_1 : mulBits (⟨55066263022277343669578718895168534326250603453777594175500187360389116729240, 32670510020758816978083085130507043184471273380659243275938904335757337482424, 1⟩ : JacPoint) (⟨1, 1, 0⟩ : JacPoint) [0, 0, 0, 0, 0, 0, 0, 0, 0, 0, 0, 0, 0, 0, 0, 0] = (⟨1, 1, 0⟩ : JacPoint) := by decide

theorem ev_ch_oneG_2 : mulBits (⟨55066263022277343669578718895168534326250603453777594175500187360389116729240, 32670510020758816978083085130507043184471273380659243275938904335757337482424, 1⟩ : JacPoint) (⟨1, 1, 0⟩ : JacPoint) [0, 0, 0, 0, 0, 0, 0, 0, 0, 0, 0, 0, 0, 0, 0, 0] = (⟨1, 1, 0⟩ : JacPoint) := by decide

theorem ev_ch_oneG_3 : mulBits (⟨55066263022277343669578718895168534326250603453777594175500187360389116729240, 32670510020758816978083085130507043184471273380659243275938904335757337482424, 1⟩ : JacPoint) (⟨1, 1, 0⟩ : JacPoint) [0, 0, 0, 0, 0, 0, 0, 0, 0, 0, 0, 0, 0, 0, 0, 0] = (⟨1, 1, 0⟩ : JacPoint) := by decide

theorem ev_ch_oneG_4 : mulBits (⟨55066263022277343669578718895168534326250603453777594175500187360389116729240, 32670510020758816978083085130507043184471273380659243275938904335757337482424, 1⟩ : JacPoint) (⟨1, 1, 0⟩ : JacPoint) [0, 0, 0, 0, 0, 0, 0, 0, 0, 0, 0, 0, 0, 0, 0, 0] = (⟨1, 1, 0⟩ : JacPoint) := by decide

theorem ev_ch_oneG_5 : mulBits (⟨55066263022277343669578718895168534326250603453777594175500187360389116729240, 32670510020758816978083085130507043184471273380659243275938904335757337482424, 1⟩ : JacPoint) (⟨1, 1, 0⟩ : JacPoint) [0, 0, 0, 0, 0, 0, 0, 0, 0, 0, 0, 0, 0, 0, 0, 0] = (⟨1, 1, 0⟩ : JacPoint) := by decide

theorem ev_ch_oneG_6 : mulBits (⟨55066263022277343669578718895168534326250603453777594175500187360389116729240, 32670510020758816978083085130507043184471273380659243275938904335757337482424, 1⟩ : JacPoint) (⟨1, 1, 0⟩ : JacPoint) [0, 0, 0, 0, 0, 0, 0, 0, 0, 0, 0, 0, 0, 0, 0, 0] = (⟨1, 1, 0⟩ : JacPoint) := by decide

theorem ev_ch_oneG_7 : mulBits (⟨55066263022277343669578718895168534326250603453777594175500187360389116729240, 32670510020758816978083085130507043184471273380659243275938904335757337482424, 1⟩ : JacPoint) (⟨1, 1, 0⟩ : JacPoint) [0, 0, 0, 0, 0, 0, 0, 0, 0, 0, 0, 0, 0, 0, 0, 0] = (⟨1, 1, 0⟩ : JacPoint) := by decide

theorem ev_ch_oneG_8 : mulBits (⟨55066263022277343669578718895168534326250603453777594175500187360389116729240, 32670510020758816978083085130507043184471273380659243275938904335757337482424, 1⟩ : JacPoint) (⟨1, 1, 0⟩ : JacPoint) [0, 0, 0, 0, 0, 0, 0, 0, 0, 0, 0, 0, 0, 0, 0, 0] = (⟨1, 1, 0⟩ : JacPoint) := by decide

theorem ev_ch_oneG_9 : mulBits (⟨55066263022277343669578718895168534326250603453777594175500187360389116729240, 32670510020758816978083085130507043184471273380659243275938904335757337482424, 1⟩ : JacPoint) (⟨1, 1, 0⟩ : JacPoint) [0, 0, 0, 0, 0, 0, 0, 0, 0, 0, 0, 0, 0, 0, 0, 0] = (⟨1, 1, 0⟩ : JacPoint) := by decide

theorem ev_ch_oneG_10 : mulBits (⟨55066263022277343669578718895168534326250603453777594175500187360389116729240, 32670510020758816978083085130507043184471273380659243275938904335757337482424, 1⟩ : JacPoint) (⟨1, 1, 0⟩ : JacPoint) [0, 0, 0, 0, 0, 0, 0, 0, 0, 0, 0, 0, 0, 0, 0, 0] = (⟨1, 1, 0⟩ : JacPoint) := by decide

theorem ev_ch_oneG_11 : mulBits (⟨55066263022277343669578718895168534326250603453777594175500187360389116729240, 32670510020758816978083085130507043184471273380659243275938904335757337482424, 1⟩ : JacPoint) (⟨1, 1, 0⟩ : JacPoint) [0, 0, 0, 0, 0, 0, 0, 0, 0, 0, 0, 0, 0, 0, 0, 0] = (⟨1, 1, 0⟩ : JacPoint) := by decide

theorem ev_ch_oneG_12 : mulBits (⟨55066263022277343669578718895168534326250603453777594175500187360389116729240, 32670510020758816978083085130507043184471273380659243275938904335757337482424, 1⟩ : JacPoint) (⟨1, 1, 0⟩ : JacPoint) [0, 0, 0, 0, 0, 0, 0, 0, 0, 0, 0, 0, 0, 0, 0, 0] = (⟨1, 1, 0⟩ : JacPoint) := by decide

theorem ev_ch_oneG_13 : mulBits (⟨55066263022277343669578718895168534326250603453777594175500187360389116729240, 32670510020758816978083085130507043184471273380659243275938904335757337482424, 1⟩ : JacPoint) (⟨1, 1, 0⟩ : JacPoint) [0, 0, 0, 0, 0, 0, 0, 0, 0, 0, 0, 0, 0, 0, 0, 0] = (⟨1, 1, 0⟩ : JacPoint) := by decide

theorem ev_ch_oneG_14 : mulBits (⟨55066263022277343669578718895168534326250603453777594175500187360389116729240, 32670510020758816978083085130507043184471273380659243275938904335757337482424, 1⟩ : JacPoint) (⟨1, 1, 0⟩ : JacPoint) [0, 0, 0, 0, 0, 0, 0, 0, 0, 0, 0, 0, 0, 0, 0, 0] = (⟨1, 1, 0⟩ : JacPoint) := by decide

theorem ev_ch_oneG_15 : mulBits (⟨55066263022277343669578718895168534326250603453777594175500187360389116729240, 32670510020758816978083085130507043184471273380659243275938904335757337482424, 1⟩ : JacPoint) (⟨1, 1, 0⟩ : JacPoint) [0, 0, 0, 0, 0, 0, 0, 0, 0, 0, 0, 0, 0, 0, 0, 1] = (⟨55066263022277343669578718895168534326250603453777594175500187360389116729240, 32670510020758816978083085130507043184471273380659243275938904335757337482424, 1⟩ : JacPoint) := by decide

theorem ev_mul_oneG : scalarMul 1 (⟨55066263022277343669578718895168534326250603453777594175500187360389116729240, 32670510020758816978083085130507043184471273380659243275938904335757337482424⟩ : AffinePoint) = (⟨55066263022277343669578718895168534326250603453777594175500187360389116729240, 32670510020758816978083085130507043184471273380659243275938904335757337482424⟩ : AffinePoint) := by
  unfold scalarMul
  rw [show toJac (⟨55066263022277343669578718895168534326250603453777594175500187360389116729240, 32670510020758816978083085130507043184471273380659243275938904335757337482424⟩ : AffinePoint) = (⟨55066263022277343669578718895168534326250603453777594175500187360389116729240, 32670510020758816978083085130507043184471273380659243275938904335757337482424, 1⟩ : JacPoint) from rfl, ev_bits_oneG]
  rw [mulBits_append, ev_ch_oneG_0]
  rw [mulBits_append, ev_ch_oneG_1]
  rw [mulBits_append, ev_ch_oneG_2]
  rw [mulBits_append, ev_ch_oneG_3]
  rw [mulBits_append, ev_ch_oneG_4]
  rw [mulBits_append, ev_ch_oneG_5]
  rw [mulBits_append, ev_ch_oneG_6]
  rw [mulBits_append, ev_ch_oneG_7]
  rw [mulBits_append, ev_ch_oneG_8]
  rw [mulBits_append, ev_ch_oneG_9]
  rw [mulBits_append, ev_ch_oneG_10]
  rw [mulBits_append, ev_ch_oneG_11]
  rw [mulBits_append, ev_ch_oneG_12]
  rw [mulBits_append, ev_ch_oneG_13]
  rw [mulBits_append, ev_ch_oneG_14]
  rw [ev_ch_oneG_15]
  decide

theorem ev_bits_oneh : natBits 1 = [0, 0, 0, 0, 0, 0, 0, 0, 0, 0, 0, 0, 0, 0, 0, 0] ++ ([0, 0, 0, 0, 0, 0, 0, 0, 0, 0, 0, 0, 0, 0, 0, 0] ++ ([0, 0, 0, 0, 0, 0, 0, 0, 0, 0, 0, 0, 0, 0, 0, 0] ++ ([0, 0, 0, 0, 0, 0, 0, 0, 0, 0, 0, 0, 0, 0, 0, 0] ++ ([0, 0, 0, 0, 0, 0, 0, 0, 0, 0, 0, 0, 0, 0, 0, 0] ++ ([0, 0, 0, 0, 0, 0, 0, 0, 0, 0, 0, 0, 0, 0, 0, 0] ++ ([0, 0, 0, 0, 0, 0, 0, 0, 0, 0, 0, 0, 0, 0, 0, 0] ++ ([0, 0, 0, 0, 0, 0, 0, 0, 0, 0, 0, 0, 0, 0, 0, 0] ++ ([0, 0, 0, 0, 0, 0, 0, 0, 0, 0, 0, 0, 0, 0, 0, 0] ++ ([0, 0, 0, 0, 0, 0, 0, 0, 0, 0, 0, 0, 0, 0, 0, 0] ++ ([0, 0, 0, 0, 0, 0, 0, 0, 0, 0, 0, 0, 0, 0, 0, 0] ++ ([0, 0, 0, 0, 0, 0, 0, 0, 0, 0, 0, 0, 0, 0, 0, 0] ++ ([0, 0, 0, 0, 0, 0, 0, 0, 0, 0, 0, 0, 0, 0, 0, 0] ++ ([0, 0, 0, 0, 0, 0, 0, 0, 0, 0, 0, 0, 0, 0, 0, 0] ++ ([0, 0, 0, 0, 0, 0, 0, 0, 0, 0, 0, 0, 0, 0, 0, 0] ++ ([0, 0, 0, 0, 0, 0, 0, 0, 0, 0, 0, 0, 0, 0, 0, 1]))))))))))))))) := by decide

theorem ev_ch_oneh_0 : mulBits (⟨71870428708512090149913339165158470654342664881549645247681064198406646637773, 18133994692784395537675898994765282412985880849103835068644440256929064169791, 1⟩ : JacPoint) (⟨1, 1, 0⟩ : JacPoint) [0, 0, 0, 0, 0, 0, 0, 0, 0, 0, 0, 0, 0, 0, 0, 0] = (⟨1, 1, 0⟩ : JacPoint) := by decide

theorem ev_ch_oneh_1 : mulBits (⟨71870428708512090149913339165158470654342664881549645247681064198406646637773, 18133994692784395537675898994765282412985880849103835068644440256929064169791, 1⟩ : JacPoint) (⟨1, 1, 0⟩ : JacPoint) [0, 0, 0, 0, 0, 0, 0, 0, 0, 0, 0, 0, 0, 0, 0, 0] = (⟨1, 1, 0⟩ : JacPoint) := by decide

theorem ev_ch_oneh_2 : mulBits (⟨71870428708512090149913339165158470654342664881549645247681064198406646637773, 18133994692784395537675898994765282412985880849103835068644440256929064169791, 1⟩ : JacPoint) (⟨1, 1, 0⟩ : JacPoint) [0, 0, 0, 0, 0, 0, 0, 0, 0, 0, 0, 0, 0, 0, 0, 0] = (⟨1, 1, 0⟩ : JacPoint) := by decide

theorem ev_ch_oneh_3 : mulBits (⟨71870428708512090149913339165158470654342664881549645247681064198406646637773, 18133994692784395537675898994765282412985880849103835068644440256929064169791, 1⟩ : JacPoint) (⟨1, 1, 0⟩ : JacPoint) [0, 0, 0, 0, 0, 0, 0, 0, 0, 0, 0, 0, 0, 0, 0, 0] = (⟨1, 1, 0⟩ : JacPoint) := by decide

theorem ev_ch_oneh_4 : mulBits (⟨71870428708512090149913339165158470654342664881549645247681064198406646637773, 18133994692784395537675898994765282412985880849103835068644440256929064169791, 1⟩ : JacPoint) (⟨1, 1, 0⟩ : JacPoint) [0, 0, 0, 0, 0, 0, 0, 0, 0, 0, 0, 0, 0, 0, 0, 0] = (⟨1, 1, 0⟩ : JacPoint) := by decide

theorem ev_ch_oneh_5 : mulBits (⟨71870428708512090149913339165158470654342664881549645247681064198406646637773, 18133994692784395537675898994765282412985880849103835068644440256929064169791, 1⟩ : JacPoint) (⟨1, 1, 0⟩ : JacPoint) [0, 0, 0, 0, 0, 0, 0, 0, 0, 0, 0, 0, 0, 0, 0, 0] = (⟨1, 1, 0⟩ : JacPoint) := by decide

theorem ev_ch_oneh_6 : mulBits (⟨71870428708512090149913339165158470654342664881549645247681064198406646637773, 18133994692784395537675898994765282412985880849103835068644440256929064169791, 1⟩ : JacPoint) (⟨1, 1, 0⟩ : JacPoint) [0, 0, 0, 0, 0, 0, 0, 0, 0, 0, 0, 0, 0, 0, 0, 0] = (⟨1, 1, 0⟩ : JacPoint) := by decide

theorem ev_ch_oneh_7 : mulBits (⟨71870428708512090149913339165158470654342664881549645247681064198406646637773, 18133994692784395537675898994765282412985880849103835068644440256929064169791, 1⟩ : JacPoint) (⟨1, 1, 0⟩ : JacPoint) [0, 0, 0, 0, 0, 0, 0, 0, 0, 0, 0, 0, 0, 0, 0, 0] = (⟨1, 1, 0⟩ : JacPoint) := by decide

theorem ev_ch_oneh_8 : mulBits (⟨71870428708512090149913339165158470654342664881549645247681064198406646637773, 18133994692784395537675898994765282412985880849103835068644440256929064169791, 1⟩ : JacPoint) (⟨1, 1, 0⟩ : JacPoint) [0, 0, 0, 0, 0, 0, 0, 0, 0, 0, 0, 0, 0, 0, 0, 0] = (⟨1, 1, 0⟩ : JacPoint) := by decide

theorem ev_ch_oneh_9 : mulBits (⟨71870428708512090149913339165158470654342664881549645247681064198406646637773, 18133994692784395537675898994765282412985880849103835068644440256929064169791, 1⟩ : JacPoint) (⟨1, 1, 0⟩ : JacPoint) [0, 0, 0, 0, 0, 0, 0, 0, 0, 0, 0, 0, 0, 0, 0, 0] = (⟨1, 1, 0⟩ : JacPoint) := by decide

theorem ev_ch_oneh_10 : mulBits (⟨71870428708512090149913339165158470654342664881549645247681064198406646637773, 18133994692784395537675898994765282412985880849103835068644440256929064169791, 1⟩ : JacPoint) (⟨1, 1, 0⟩ : JacPoint) [0, 0, 0, 0, 0, 0, 0, 0, 0, 0, 0, 0, 0, 0, 0, 0] = (⟨1, 1, 0⟩ : JacPoint) := by decide

theorem ev_ch_oneh_11 : mulBits (⟨71870428708512090149913339165158470654342664881549645247681064198406646637773, 18133994692784395537675898994765282412985880849103835068644440256929064169791, 1⟩ : JacPoint) (⟨1, 1, 0⟩ : JacPoint) [0, 0, 0, 0, 0, 0, 0, 0, 0, 0, 0, 0, 0, 0, 0, 0] = (⟨1, 1, 0⟩ : JacPoint) := by decide

theorem ev_ch_oneh_12 : mulBits (⟨71870428708512090149913339165158470654342664881549645247681064198406646637773, 18133994692784395537675898994765282412985880849103835068644440256929064169791, 1⟩ : JacPoint) (⟨1, 1, 0⟩ : JacPoint) [0, 0, 0, 0, 0, 0, 0, 0, 0, 0, 0, 0, 0, 0, 0, 0] = (⟨1, 1, 0⟩ : JacPoint) := by decide

theorem ev_ch_oneh_13 : mulBits (⟨71870428708512090149913339165158470654342664881549645247681064198406646637773, 18133994692784395537675898994765282412985880849103835068644440256929064169791, 1⟩ : JacPoint) (⟨1, 1, 0⟩ : JacPoint) [0, 0, 0, 0, 0, 0, 0, 0, 0, 0, 0, 0, 0, 0, 0, 0] = (⟨1, 1, 0⟩ : JacPoint) := by decide

theorem ev_ch_oneh_14 : mulBits (⟨71870428708512090149913339165158470654342664881549645247681064198406646637773, 18133994692784395537675898994765282412985880849103835068644440256929064169791, 1⟩ : JacPoint) (⟨1, 1, 0⟩ : JacPoint) [0, 0, 0, 0, 0, 0, 0, 0, 0, 0, 0, 0, 0, 0, 0, 0] = (⟨1, 1, 0⟩ : JacPoint) := by decide

theorem ev_ch_oneh_15 : mulBits (⟨71870428708512090149913339165158470654342664881549645247681064198406646637773, 18133994692784395537675898994765282412985880849103835068644440256929064169791, 1⟩ : JacPoint) (⟨1, 1, 0⟩ : JacPoint) [0, 0, 0, 0, 0, 0, 0, 0, 0, 0, 0, 0, 0, 0, 0, 1] = (⟨71870428708512090149913339165158470654342664881549645247681064198406646637773, 18133994692784395537675898994765282412985880849103835068644440256929064169791, 1⟩ : JacPoint) := by decide

theorem ev_mul_oneh : scalarMul 1 (⟨71870428708512090149913339165158470654342664881549645247681064198406646637773, 18133994692784395537675898994765282412985880849103835068644440256929064169791⟩ : AffinePoint) = (⟨71870428708512090149913339165158470654342664881549645247681064198406646637773, 18133994692784395537675898994765282412985880849103835068644440256929064169791⟩ : AffinePoint) := by
  unfold scalarMul
  rw [show toJac (⟨71870428708512090149913339165158470654342664881549645247681064198406646637773, 18133994692784395537675898994765282412985880849103835068644440256929064169791⟩ : AffinePoint) = (⟨71870428708512090149913339165158470654342664881549645247681064198406646637773, 18133994692784395537675898994765282412985880849103835068644440256929064169791, 1⟩ : JacPoint) from rfl, ev_bits_oneh]
  rw [mulBits_append, ev_ch_oneh_0]
  rw [mulBits_append, ev_ch_oneh_1]
  rw [mulBits_append, ev_ch_oneh_2]
  rw [mulBits_append, ev_ch_oneh_3]
  rw [mulBits_append, ev_ch_oneh_4]
  rw [mulBits_append, ev_ch_oneh_5]
  rw [mulBits_append, ev_ch_oneh_6]
  rw [mulBits_append, ev_ch_oneh_7]
  rw [mulBits_append, ev_ch_oneh_8]
  rw [mulBits_append, ev_ch_oneh_9]
  rw [mulBits_append, ev_ch_oneh_10]
  rw [mulBits_append, ev_ch_oneh_11]
  rw [mulBits_append, ev_ch_oneh_12]
  rw [mulBits_append, ev_ch_oneh_13]
  rw [mulBits_append, ev_ch_oneh_14]
  rw [ev_ch_oneh_15]
  decide

theorem ev_bits_cG : natBits 45169903159224190650192140433894557512096871368260212802750569957993394410507 = [0, 1, 1, 0, 0, 0, 1, 1, 1, 1, 0, 1, 1, 1, 0, 1] ++ ([0, 1, 0, 0, 0, 0, 1, 0, 0, 1, 0, 1, 1, 0, 1, 0] ++ ([0, 0, 1, 1, 1, 1, 0, 1, 1, 1, 0, 1, 0, 0, 1, 0] ++ ([1, 0, 1, 0, 0, 1, 1, 0, 1, 1, 1, 1, 0, 0, 0, 0] ++ ([1, 0, 1, 1, 0, 0, 1, 0, 0, 0, 0, 1, 0, 1, 0, 0] ++ ([0, 0, 0, 1, 1, 0, 0, 1, 0, 1, 1, 0, 0, 1, 1, 0] ++ ([0, 0, 0, 0, 0, 0, 1, 0, 0, 0, 1, 1, 0, 0, 1, 0] ++ ([0, 1, 0, 0, 0, 0, 1, 1, 1, 1, 0, 1, 0, 0, 1, 1] ++ ([0, 1, 0, 0, 1, 1, 0, 1, 1, 0, 0, 0, 1, 0, 1, 0] ++ ([1, 0, 0, 1, 1, 0, 0, 0, 0, 1, 0, 1, 0, 1, 0, 1] ++ ([1, 1, 1, 0, 1, 1, 1, 1, 1, 1, 1, 0, 0, 1, 1, 0] ++ ([0, 0, 0, 0, 1, 0, 0, 1, 0, 0, 1, 0, 0, 0, 1, 1] ++ ([0, 0, 0, 0, 0, 0, 0, 1, 1, 1, 1, 0, 0, 0, 1, 0] ++ ([1, 0, 1, 1, 1, 0, 1, 0, 0, 1, 1, 0, 0, 1, 0, 1] ++ ([0, 1, 0, 0, 0, 0, 0, 1, 0, 1, 1, 0, 0, 0, 1, 1] ++ ([0, 0, 0, 1, 0, 1, 0, 0, 0, 0, 0, 0, 1, 0, 1, 1]))))))))))))))) := by decide

theorem ev_ch_cG_0 : mulBits (⟨55066263022277343669578718895168534326250603453777594175500187360389116729240, 32670510020758816978083085130507043184471273380659243275938904335757337482424, 1⟩ : JacPoint) (⟨1, 1, 0⟩ : JacPoint) [0, 1, 1, 0, 0, 0, 1, 1, 1, 1, 0, 1, 1, 1, 0, 1] = (⟨34634143380144622346973827462593106049938722345130302625046803313916136337677, 38602505001698112483121385126363906697111999999275502521525889814395485513012, 108158179714954107841356129314426007634212350068915960769664597857062317129975⟩ : JacPoint) := by decide

theorem ev_ch_cG_1 : mulBits (⟨55066263022277343669578718895168534326250603453777594175500187360389116729240, 32670510020758816978083085130507043184471273380659243275938904335757337482424, 1⟩ : JacPoint) (⟨34634143380144622346973827462593106049938722345130302625046803313916136337677, 38602505001698112483121385126363906697111999999275502521525889814395485513012, 108158179714954107841356129314426007634212350068915960769664597857062317129975⟩ : JacPoint) [0, 1, 0, 0, 0, 0, 1, 0, 0, 1, 0, 1, 1, 0, 1, 0] = (⟨12090185866256238872957611449580094696559867014677606447687512751488422962145, 80622755320126813689837959916475461912271478389407942598795423783827736386237, 104394992520200312319650989257728805736778348543045166245538413158839919563850⟩ : JacPoint) := by decide

theorem ev_ch_cG_2 : mulBits (⟨55066263022277343669578718895168534326250603453777594175500187360389116729240, 32670510020758816978083085130507043184471273380659243275938904335757337482424, 1⟩ : JacPoint) (⟨12090185866256238872957611449580094696559867014677606447687512751488422962145, 80622755320126813689837959916475461912271478389407942598795423783827736386237, 104394992520200312319650989257728805736778348543045166245538413158839919563850⟩ : JacPoint) [0, 0, 1, 1, 1, 1, 0, 1, 1, 1, 0, 1, 0, 0, 1, 0] = (⟨96503591155042266467341749322299007349116786818493375820668598122819648863890, 82912945077888703892178372579487924526249176018652562378174797438390562047046, 9553781872351433032520943175944509661999910857342013754501587279367005182277⟩ : JacPoint) := by decide

theorem ev_ch_cG_3 : mulBits (⟨55066263022277343669578718895168534326250603453777594175500187360389116729240, 32670510020758816978083085130507043184471273380659243275938904335757337482424, 1⟩ : JacPoint) (⟨96503591155042266467341749322299007349116786818493375820668598122819648863890, 82912945077888703892178372579487924526249176018652562378174797438390562047046, 9553781872351433032520943175944509661999910857342013754501587279367005182277⟩ : JacPoint) [1, 0, 1, 0, 0, 1, 1, 0, 1, 1, 1, 1, 0, 0, 0, 0] = (⟨72104475535651876048933770023703185308096684808595295396111252406276061410853, 13506136367851137122708037254688944762843663451581029424654851267060021924669, 110965774163386342034469729421287294166495163363856534935983175366486313308935⟩ : JacPoint) := by decide

theorem ev_ch_cG_4 : mulBits (⟨55066263022277343669578718895168534326250603453777594175500187360389116729240, 32670510020758816978083085130507043184471273380659243275938904335757337482424, 1⟩ : JacPoint) (⟨72104475535651876048933770023703185308096684808595295396111252406276061410853, 13506136367851137122708037254688944762843663451581029424654851267060021924669, 110965774163386342034469729421287294166495163363856534935983175366486313308935⟩ : JacPoint) [1, 0, 1, 1, 0, 0, 1, 0, 0, 0, 0, 1, 0, 1, 0, 0] = (⟨52712595229834538599300978760402092509612695746576756225586512607011982918630, 61092719110239939463789994575132892150203012307183323551724721795093969758533, 1663154935326936062162010902392438011333553865197497151538483027309762697504⟩ : JacPoint) := by decide

theorem ev_ch_cG_5 : mulBits (⟨55066263022277343669578718895168534326250603453777594175500187360389116729240, 32670510020758816978083085130507043184471273380659243275938904335757337482424, 1⟩ : JacPoint) (⟨52712595229834538599300978760402092509612695746576756225586512607011982918630, 61092719110239939463789994575132892150203012307183323551724721795093969758533, 1663154935326936062162010902392438011333553865197497151538483027309762697504⟩ : JacPoint) [0, 0, 0, 1, 1, 0, 0, 1, 0, 1, 1, 0, 0, 1, 1, 0] = (⟨59560468594901271906445431451555538258220299480934458668579958631808525740163, 7200999149690882432598844195177382797030266885813726629394179661737075119690, 72697476956624718850447365608486501432183079027063958802537473628760419376937⟩ : JacPoint) := by decide

theorem ev_ch_cG_6 : mulBits (⟨55066263022277343669578718895168534326250603453777594175500187360389116729240, 32670510020758816978083085130507043184471273380659243275938904335757337482424, 1⟩ : JacPoint) (⟨59560468594901271906445431451555538258220299480934458668579958631808525740163, 7200999149690882432598844195177382797030266885813726629394179661737075119690, 72697476956624718850447365608486501432183079027063958802537473628760419376937⟩ : JacPoint) [0, 0, 0, 0, 0, 0, 1, 0, 0, 0, 1, 1, 0, 0, 1, 0] = (⟨8978036106344366720086229603477684681996679882986141779971030982269696471647, 97499053301232798723430813239856267820035982291371970903491755017869466544369, 106411982321155893710501360949860194444619457962795072689814970217724378043140⟩ : JacPoint) := by decide

theorem ev_ch_cG_7 : mulBits (⟨55066263022277343669578718895168534326250603453777594175500187360389116729240, 32670510020758816978083085130507043184471273380659243275938904335757337482424, 1⟩ : JacPoint) (⟨8978036106344366720086229603477684681996679882986141779971030982269696471647, 97499053301232798723430813239856267820035982291371970903491755017869466544369, 106411982321155893710501360949860194444619457962795072689814970217724378043140⟩ : JacPoint) [0, 1, 0, 0, 0, 0, 1, 1, 1, 1, 0, 1, 0, 0, 1, 1] = (⟨104940404878253720610167994289213951414059940348327068745287414386089375256842, 74125219491934258449340910071437008825618906485709954485738459788077476423140, 51035677795957785752807769056284349553724563049774155191761349065091140586831⟩ : JacPoint) := by decide

theorem ev_ch_cG_8 : mulBits (⟨55066263022277343669578718895168534326250603453777594175500187360389116729240, 32670510020758816978083085130507043184471273380659243275938904335757337482424, 1⟩ : JacPoint) (⟨104940404878253720610167994289213951414059940348327068745287414386089375256842, 74125219491934258449340910071437008825618906485709954485738459788077476423140, 51035677795957785752807769056284349553724563049774155191761349065091140586831⟩ : JacPoint) [0, 1, 0, 0, 1, 1, 0, 1, 1, 0, 0, 0, 1, 0, 1, 0] = (⟨98979408358612285852428477328586402224115472589679237687723286667494005922643, 53127607112762105870100480062332063047374986474349264407477126163983449329820, 89539170140117769878036019479064859596874350173061248970183957438447938577627⟩ : JacPoint) := by decide

theorem ev_ch_cG_9 : mulBits (⟨55066263022277343669578718895168534326250603453777594175500187360389116729240, 32670510020758816978083085130507043184471273380659243275938904335757337482424, 1⟩ : JacPoint) (⟨98979408358612285852428477328586402224115472589679237687723286667494005922643, 53127607112762105870100480062332063047374986474349264407477126163983449329820, 89539170140117769878036019479064859596874350173061248970183957438447938577627⟩ : JacPoint) [1, 0, 0, 1, 1, 0, 0, 0, 0, 1, 0, 1, 0, 1, 0, 1] = (⟨23018856223014243216921164658942410079433423435055999025272392659827328563815, 22745815832184968454039494736325671416505731020628013620823134094622443435810, 22416708168796723776078022224428044874422851246792659685661639997633500148965⟩ : JacPoint) := by decide

theorem ev_ch_cG_10 : mulBits (⟨55066263022277343669578718895168534326250603453777594175500187360389116729240, 32670510020758816978083085130507043184471273380659243275938904335757337482424, 1⟩ : JacPoint) (⟨23018856223014243216921164658942410079433423435055999025272392659827328563815, 22745815832184968454039494736325671416505731020628013620823134094622443435810, 22416708168796723776078022224428044874422851246792659685661639997633500148965⟩ : JacPoint) [1, 1, 1, 0, 1, 1, 1, 1, 1, 1, 1, 0, 0, 1, 1, 0] = (⟨96364976942189509017590454215605425851724512258814559766991854930992192137880, 97917020143962588978356780753712315276164432502526457728004806241421343961875, 97385933305407520413373305577434218999866764535325217008515895462128409818133⟩ : JacPoint) := by decide

theorem ev_ch_cG_11 : mulBits (⟨55066263022277343669578718895168534326250603453777594175500187360389116729240, 32670510020758816978083085130507043184471273380659243275938904335757337482424, 1⟩ : JacPoint) (⟨96364976942189509017590454215605425851724512258814559766991854930992192137880, 97917020143962588978356780753712315276164432502526457728004806241421343961875, 97385933305407520413373305577434218999866764535325217008515895462128409818133⟩ : JacPoint) [0, 0, 0, 0, 1, 0, 0, 1, 0, 0, 1, 0, 0, 0, 1, 1] = (⟨93874264833694167677859492028430303844314059584294434841099660655165674168621, 17159968267452400784537870295286512722010720442102078003267414595332957727866, 20843072524140618522081941480913627975237143157895672906391985456800820596686⟩ : JacPoint) := by decide

theorem ev_ch_cG_12 : mulBits (⟨55066263022277343669578718895168534326250603453777594175500187360389116729240, 32670510020758816978083085130507043184471273380659243275938904335757337482424, 1⟩ : JacPoint) (⟨93874264833694167677859492028430303844314059584294434841099660655165674168621, 17159968267452400784537870295286512722010720442102078003267414595332957727866, 20843072524140618522081941480913627975237143157895672906391985456800820596686⟩ : JacPoint) [0, 0, 0, 0, 0, 0, 0, 1, 1, 1, 1, 0, 0, 0, 1, 0] = (⟨26665470865565507008910727031356842207796987732807463615444755959244516392869, 50599823458426155024666564446703821749391937530506919432893994851199395266387, 56353592754029134033902504097283906168043809453620232620893920082903103418222⟩ : JacPoint) := by decide

theorem ev_ch_cG_13 : mulBits (⟨55066263022277343669578718895168534326250603453777594175500187360389116729240, 32670510020758816978083085130507043184471273380659243275938904335757337482424, 1⟩ : JacPoint) (⟨26665470865565507008910727031356842207796987732807463615444755959244516392869, 50599823458426155024666564446703821749391937530506919432893994851199395266387, 56353592754029134033902504097283906168043809453620232620893920082903103418222⟩ : JacPoint) [1, 0, 1, 1, 1, 0, 1, 0, 0, 1, 1, 0, 0, 1, 0, 1] = (⟨104752207562005819626128501443696613317472092567285893486510905412848874790401, 63225177126242942074742127398001074973841164093329707715064824572145266537006, 21774341864067787190730051183188198251725745795544757473075861987974505532280⟩ : JacPoint) := by decide

theorem ev_ch_cG_14 : mulBits (⟨55066263022277343669578718895168534326250603453777594175500187360389116729240, 32670510020758816978083085130507043184471273380659243275938904335757337482424, 1⟩ : JacPoint) (⟨104752207562005819626128501443696613317472092567285893486510905412848874790401, 63225177126242942074742127398001074973841164093329707715064824572145266537006, 21774341864067787190730051183188198251725745795544757473075861987974505532280⟩ : JacPoint) [0, 1, 0, 0, 0, 0, 0, 1, 0, 1, 1, 0, 0, 0, 1, 1] = (⟨50431479669295296413576602125841221393141862133261857473517770178420269295777, 39789272657451187973855377521782499265376607175279953666904460470974517578392, 2627593639189216170424748181513070081609461815652626489661860756710203789621⟩ : JacPoint) := by decide

theorem ev_ch_cG_15 : mulBits (⟨55066263022277343669578718895168534326250603453777594175500187360389116729240, 32670510020758816978083085130507043184471273380659243275938904335757337482424, 1⟩ : JacPoint) (⟨50431479669295296413576602125841221393141862133261857473517770178420269295777, 39789272657451187973855377521782499265376607175279953666904460470974517578392, 2627593639189216170424748181513070081609461815652626489661860756710203789621⟩ : JacPoint) [0, 0, 0, 1, 0, 1, 0, 0, 0, 0, 0, 0, 1, 0, 1, 1] = (⟨56087115002443117183917563344572708701785491320500886205059139602377445763789, 54073304837446084195532864442659029050871125900436430862557450380802887587088, 18565875663346498693695392518010184667006251106834739136435338908831517210222⟩ : JacPoint) := by decide

theorem ev_mul_cG : scalarMul 45169903159224190650192140433894557512096871368260212802750569957993394410507 (⟨55066263022277343669578718895168534326250603453777594175500187360389116729240, 32670510020758816978083085130507043184471273380659243275938904335757337482424⟩ : AffinePoint) = (⟨52875959104073891628266812192888018107178853199925838177898960111133691594573, 87741885177825853246247394985785762812856640079911586049693225033674403844752⟩ : AffinePoint) := by
  unfold scalarMul
  rw [show toJac (⟨55066263022277343669578718895168534326250603453777594175500187360389116729240, 32670510020758816978083085130507043184471273380659243275938904335757337482424⟩ : AffinePoint) = (⟨55066263022277343669578718895168534326250603453777594175500187360389116729240, 32670510020758816978083085130507043184471273380659243275938904335757337482424, 1⟩ : JacPoint) from rfl, ev_bits_cG]
  rw [mulBits_append, ev_ch_cG_0]
  rw [mulBits_append, ev_ch_cG_1]
  rw [mulBits_append, ev_ch_cG_2]
  rw [mulBits_append, ev_ch_cG_3]
  rw [mulBits_append, ev_ch_cG_4]
  rw [mulBits_append, ev_ch_cG_5]
  rw [mulBits_append, ev_ch_cG_6]
  rw [mulBits_append, ev_ch_cG_7]
  rw [mulBits_append, ev_ch_cG_8]
  rw [mulBits_append, ev_ch_cG_9]
  rw [mulBits_append, ev_ch_cG_10]
  rw [mulBits_append, ev_ch_cG_11]
  rw [mulBits_append, ev_ch_cG_12]
  rw [mulBits_append, ev_ch_cG_13]
  rw [mulBits_append, ev_ch_cG_14]
  rw [ev_ch_cG_15]
  decide

theorem ev_bits_sG : natBits 70622186078092004773378844574793350340740692910814691579854593183524767083831 = [1, 0, 0, 1, 1, 1, 0, 0, 0, 0, 1, 0, 0, 0, 1, 0] ++ ([1, 0, 1, 1, 1, 1, 0, 1, 1, 0, 1, 0, 0, 1, 0, 1] ++ ([1, 1, 0, 0, 0, 0, 1, 0, 0, 0, 1, 0, 1, 1, 0, 1] ++ ([0, 1, 0, 1, 1, 0, 0, 1, 0, 0, 0, 0, 1, 1, 1, 1] ++ ([0, 1, 0, 0, 1, 1, 0, 1, 1, 1, 1, 0, 1, 0, 1, 1] ++ ([1, 1, 1, 0, 0, 1, 1, 0, 1, 0, 0, 1, 1, 0, 0, 1] ++ ([1, 1, 1, 1, 1, 1, 0, 1, 1, 1, 0, 0, 1, 1, 0, 1] ++ ([1, 0, 1, 1, 1, 1, 0, 0, 0, 0, 1, 0, 1, 0, 1, 1] ++ ([0, 1, 1, 0, 1, 1, 0, 1, 0, 0, 1, 0, 0, 1, 0, 0] ++ ([0, 1, 0, 0, 0, 1, 0, 0, 1, 0, 0, 1, 0, 0, 0, 0] ++ ([1, 0, 1, 1, 1, 1, 1, 1, 0, 1, 1, 0, 0, 0, 1, 0] ++ ([1, 0, 0, 1, 0, 1, 1, 1, 0, 0, 0, 1, 1, 0, 0, 0] ++ ([1, 0, 1, 1, 1, 1, 0, 1, 1, 1, 1, 0, 1, 1, 1, 1] ++ ([1, 0, 1, 0, 0, 1, 0, 0, 0, 0, 1, 0, 0, 1, 1, 1] ++ ([1, 0, 0, 0, 1, 1, 1, 0, 1, 1, 0, 1, 0, 0, 1, 1] ++ ([0, 0, 1, 0, 1, 1, 0, 1, 0, 0, 1, 1, 0, 1, 1, 1]))))))))))))))) := by decide

theorem ev_ch_sG_0 : mulBits (⟨55066263022277343669578718895168534326250603453777594175500187360389116729240, 32670510020758816978083085130507043184471273380659243275938904335757337482424, 1⟩ : JacPoint) (⟨1, 1, 0⟩ : JacPoint) [1, 0, 0, 1, 1, 1, 0, 0, 0, 0, 1, 0, 0, 0, 1, 0] = (⟨94633874680915220537778671890115581516201244752375740287453628370913953298114, 62082698048893153312985509440019077293481659729026767247261152181712432266967, 71030571610797012283084939958178986743658569017810849057274343844321005638568⟩ : JacPoint) := by decide

theorem ev_ch_sG_1 : mulBits (⟨55066263022277343669578718895168534326250603453777594175500187360389116729240, 32670510020758816978083085130507043184471273380659243275938904335757337482424, 1⟩ : JacPoint) (⟨94633874680915220537778671890115581516201244752375740287453628370913953298114, 62082698048893153312985509440019077293481659729026767247261152181712432266967, 71030571610797012283084939958178986743658569017810849057274343844321005638568⟩ : JacPoint) [1, 0, 1, 1, 1, 1, 0, 1, 1, 0, 1, 0, 0, 1, 0, 1] = (⟨1336592376552197896546320647700296395872563784533951829401846855262087312149, 13670348726207624362051543013082099561215901888927708887951788190057336376610, 8979654763219633190010486203338757693574938183423290676726655389155657248499⟩ : JacPoint) := by decide

theorem ev_ch_sG_2 : mulBits (⟨55066263022277343669578718895168534326250603453777594175500187360389116729240, 32670510020758816978083085130507043184471273380659243275938904335757337482424, 1⟩ : JacPoint) (⟨1336592376552197896546320647700296395872563784533951829401846855262087312149, 13670348726207624362051543013082099561215901888927708887951788190057336376610, 8979654763219633190010486203338757693574938183423290676726655389155657248499⟩ : JacPoint) [1, 1, 0, 0, 0, 0, 1, 0, 0, 0, 1, 0, 1, 1, 0, 1] = (⟨51379326741745646331504281066722517114438189988407371343274276189765447918195, 106583918072836883260854963320703901856781082171289394521177604754773081379624, 147727655636057320783704644521561194636616684382291298296456823932683789547⟩ : JacPoint) := by decide

theorem ev_ch_sG_3 : mulBits (⟨55066263022277343669578718895168534326250603453777594175500187360389116729240, 32670510020758816978083085130507043184471273380659243275938904335757337482424, 1⟩ : JacPoint) (⟨51379326741745646331504281066722517114438189988407371343274276189765447918195, 106583918072836883260854963320703901856781082171289394521177604754773081379624, 147727655636057320783704644521561194636616684382291298296456823932683789547⟩ : JacPoint) [0, 1, 0, 1, 1, 0, 0, 1, 0, 0, 0, 0, 1, 1, 1, 1] = (⟨66266637279473915774731968524331384794600856100199720073198813791830564670076, 99989781281540636713419994342161875015668764507051399726046575585236392438280, 106169966597906834112005314561558296894422598028921139225899883217736790626703⟩ : JacPoint) := by decide

theorem ev_ch_sG_4 : mulBits (⟨55066263022277343669578718895168534326250603453777594175500187360389116729240, 32670510020758816978083085130507043184471273380659243275938904335757337482424, 1⟩ : JacPoint) (⟨66266637279473915774731968524331384794600856100199720073198813791830564670076, 99989781281540636713419994342161875015668764507051399726046575585236392438280, 106169966597906834112005314561558296894422598028921139225899883217736790626703⟩ : JacPoint) [0, 1, 0, 0, 1, 1, 0, 1, 1, 1, 1, 0, 1, 0, 1, 1] = (⟨69613820837094818342296485769836558141879433416772509825036678395328696176258, 38501555633850523845697713995447544881304891242215520684271143011541442843907, 34396479617015094637928087764697132027098987303879294811339252042171840579274⟩ : JacPoint) := by decide

theorem ev_ch_sG_5 : mulBits (⟨55066263022277343669578718895168534326250603453777594175500187360389116729240, 32670510020758816978083085130507043184471273380659243275938904335757337482424, 1⟩ : JacPoint) (⟨69613820837094818342296485769836558141879433416772509825036678395328696176258, 38501555633850523845697713995447544881304891242215520684271143011541442843907, 34396479617015094637928087764697132027098987303879294811339252042171840579274⟩ : JacPoint) [1, 1, 1, 0, 0, 1, 1, 0, 1, 0, 0, 1, 1, 0, 0, 1] = (⟨18840641899457329790541635704502597834621433790067975215744725325774027879348, 38253259433382487703617672808032541695803813311140309840446280569114779661757, 105490509873613550330202687784159842678726981465357220489500537016795495295758⟩ : JacPoint) := by decide

theorem ev_ch_sG_6 : mulBits (⟨55066263022277343669578718895168534326250603453777594175500187360389116729240, 32670510020758816978083085130507043184471273380659243275938904335757337482424, 1⟩ : JacPoint) (⟨18840641899457329790541635704502597834621433790067975215744725325774027879348, 38253259433382487703617672808032541695803813311140309840446280569114779661757, 105490509873613550330202687784159842678726981465357220489500537016795495295758⟩ : JacPoint) [1, 1, 1, 1, 1, 1, 0, 1, 1, 1, 0, 0, 1, 1, 0, 1] = (⟨114972032912273769913295202260562191585371596096099194871042941460983303349824, 21661971250543390371352371302059947960969897378524339313438156119994155396554, 103098618634537034812318375139894445556555615917770728872536454701870994078533⟩ : JacPoint) := by decide

theorem ev_ch_sG_7 : mulBits (⟨55066263022277343669578718895168534326250603453777594175500187360389116729240, 32670510020758816978083085130507043184471273380659243275938904335757337482424, 1⟩ : JacPoint) (⟨114972032912273769913295202260562191585371596096099194871042941460983303349824, 21661971250543390371352371302059947960969897378524339313438156119994155396554, 103098618634537034812318375139894445556555615917770728872536454701870994078533⟩ : JacPoint) [1, 0, 1, 1, 1, 1, 0, 0, 0, 0, 1, 0, 1, 0, 1, 1] = (⟨25638742648307799540283448633412910782217313170081465903057338930142101659177, 106522601275627581402673981216055834752170731890590209971079773203051054968520, 3839592488395274138958252947169251589488746988139650368508508227710461674260⟩ : JacPoint) := by decide

theorem ev_ch_sG_8 : mulBits (⟨55066263022277343669578718895168534326250603453777594175500187360389116729240, 32670510020758816978083085130507043184471273380659243275938904335757337482424, 1⟩ : JacPoint) (⟨25638742648307799540283448633412910782217313170081465903057338930142101659177, 106522601275627581402673981216055834752170731890590209971079773203051054968520, 3839592488395274138958252947169251589488746988139650368508508227710461674260⟩ : JacPoint) [0, 1, 1, 0, 1, 1, 0, 1, 0, 0, 1, 0, 0, 1, 0, 0] = (⟨43953896126903696709763348124113691728777175305075951309741736722912652017710, 103870181304556345573183332180525129655616269018274923352977936703512521840822, 94460047534533810378095523305925069450156425266388276148404645030313266505333⟩ : JacPoint) := by decide

theorem ev_ch_sG_9 : mulBits (⟨55066263022277343669578718895168534326250603453777594175500187360389116729240, 32670510020758816978083085130507043184471273380659243275938904335757337482424, 1⟩ : JacPoint) (⟨43953896126903696709763348124113691728777175305075951309741736722912652017710, 103870181304556345573183332180525129655616269018274923352977936703512521840822, 94460047534533810378095523305925069450156425266388276148404645030313266505333⟩ : JacPoint) [0, 1, 0, 0, 0, 1, 0, 0, 1, 0, 0, 1, 0, 0, 0, 0] = (⟨114184514480173656621974856952810325958047966512437730082912065672834227562941, 39556163116221928925166562012018676130785548555222514564366347639813735696683, 38775735849217434268445329402520362042388864640233537057603853196690283183423⟩ : JacPoint) := by decide

theorem ev_ch_sG_10 : mulBits (⟨55066263022277343669578718895168534326250603453777594175500187360389116729240, 32670510020758816978083085130507043184471273380659243275938904335757337482424, 1⟩ : JacPoint) (⟨114184514480173656621974856952810325958047966512437730082912065672834227562941, 39556163116221928925166562012018676130785548555222514564366347639813735696683, 38775735849217434268445329402520362042388864640233537057603853196690283183423⟩ : JacPoint) [1, 0, 1, 1, 1, 1, 1, 1, 0, 1, 1, 0, 0, 0, 1, 0] = (⟨15986372351236654695854304647029644705592934043426296186026109439149698131474, 63102679856149310871984176472566185968291056050973791310059340841524048810780, 17321851081103896487686780536492547926036578558616460555184302383983477184154⟩ : JacPoint) := by decide

theorem ev_ch_sG_11 : mulBits (⟨55066263022277343669578718895168534326250603453777594175500187360389116729240, 32670510020758816978083085130507043184471273380659243275938904335757337482424, 1⟩ : JacPoint) (⟨15986372351236654695854304647029644705592934043426296186026109439149698131474, 63102679856149310871984176472566185968291056050973791310059340841524048810780, 17321851081103896487686780536492547926036578558616460555184302383983477184154⟩ : JacPoint) [1, 0, 0, 1, 0, 1, 1, 1, 0, 0, 0, 1, 1, 0, 0, 0] = (⟨109675265609739081900947704304636935921970166586004879122833627291545593141303, 71271382200814530827568186039937385822171257543110159841106283491210019491657, 84492220168248834636463222551723250310217200968203179075884894258304763282139⟩ : JacPoint) := by decide

theorem ev_ch_sG_12 : mulBits (⟨55066263022277343669578718895168534326250603453777594175500187360389116729240, 32670510020758816978083085130507043184471273380659243275938904335757337482424, 1⟩ : JacPoint) (⟨109675265609739081900947704304636935921970166586004879122833627291545593141303, 71271382200814530827568186039937385822171257543110159841106283491210019491657, 84492220168248834636463222551723250310217200968203179075884894258304763282139⟩ : JacPoint) [1, 0, 1, 1, 1, 1, 0, 1, 1, 1, 1, 0, 1, 1, 1, 1] = (⟨40261721386517936274945180830358497705605163090144117961323228622180805236885, 73685976809757317159141252412809887992341838124515655759245193134640025511496, 37261188973486937150657485581707670968220932490321229926890964882266747777034⟩ : JacPoint) := by decide

theorem ev_ch_sG_13 : mulBits (⟨55066263022277343669578718895168534326250603453777594175500187360389116729240, 32670510020758816978083085130507043184471273380659243275938904335757337482424, 1⟩ : JacPoint) (⟨40261721386517936274945180830358497705605163090144117961323228622180805236885, 73685976809757317159141252412809887992341838124515655759245193134640025511496, 37261188973486937150657485581707670968220932490321229926890964882266747777034⟩ : JacPoint) [1, 0, 1, 0, 0, 1, 0, 0, 0, 0, 1, 0, 0, 1, 1, 1] = (⟨19192447249746401085821773882427139928118277771293509149552906460598043259523, 34237971382695580894108294754609918477482325178822128795885308237492029754575, 92143522411869542383518360688832671120008553455428518441600994729443184311137⟩ : JacPoint) := by decide

theorem ev_ch_sG_14 : mulBits (⟨55066263022277343669578718895168534326250603453777594175500187360389116729240, 32670510020758816978083085130507043184471273380659243275938904335757337482424, 1⟩ : JacPoint) (⟨19192447249746401085821773882427139928118277771293509149552906460598043259523, 34237971382695580894108294754609918477482325178822128795885308237492029754575, 92143522411869542383518360688832671120008553455428518441600994729443184311137⟩ : JacPoint) [1, 0, 0, 0, 1, 1, 1, 0, 1, 1, 0, 1, 0, 0, 1, 1] = (⟨24468870355978415160615191131362933690793445242121712255628630614655843391483, 82724295696063071235714376789640331021352337018181805714463320063484988020095, 5908361573504373029785507790323795868679994233740670590343529502495979501735⟩ : JacPoint) := by decide

theorem ev_ch_sG_15 : mulBits (⟨55066263022277343669578718895168534326250603453777594175500187360389116729240, 32670510020758816978083085130507043184471273380659243275938904335757337482424, 1⟩ : JacPoint) (⟨24468870355978415160615191131362933690793445242121712255628630614655843391483, 82724295696063071235714376789640331021352337018181805714463320063484988020095, 5908361573504373029785507790323795868679994233740670590343529502495979501735⟩ : JacPoint) [0, 0, 1, 0, 1, 1, 0, 1, 0, 0, 1, 1, 0, 1, 1, 1] = (⟨93052487516398131254952374018995259481866531649884472674348688674662989756515, 8519909934200887420697214636521134383520876965572442980613716250943370101732, 38458458058519625470829993555540377637815579813756672717812390720736656435627⟩ : JacPoint) := by decide

theorem ev_mul_sG : scalarMul 70622186078092004773378844574793350340740692910814691579854593183524767083831 (⟨55066263022277343669578718895168534326250603453777594175500187360389116729240, 32670510020758816978083085130507043184471273380659243275938904335757337482424⟩ : AffinePoint) = (⟨87038628720268619764690271085158498521971702406746325595917693003993620009280, 98849711278498176785210440103756971579947168231690304501883350145746404420163⟩ : AffinePoint) := by
  unfold scalarMul
  rw [show toJac (⟨55066263022277343669578718895168534326250603453777594175500187360389116729240, 32670510020758816978083085130507043184471273380659243275938904335757337482424⟩ : AffinePoint) = (⟨55066263022277343669578718895168534326250603453777594175500187360389116729240, 32670510020758816978083085130507043184471273380659243275938904335757337482424, 1⟩ : JacPoint) from rfl, ev_bits_sG]
  rw [mulBits_append, ev_ch_sG_0]
  rw [mulBits_append, ev_ch_sG_1]
  rw [mulBits_append, ev_ch_sG_2]
  rw [mulBits_append, ev_ch_sG_3]
  rw [mulBits_append, ev_ch_sG_4]
  rw [mulBits_append, ev_ch_sG_5]
  rw [mulBits_append, ev_ch_sG_6]
  rw [mulBits_append, ev_ch_sG_7]
  rw [mulBits_append, ev_ch_sG_8]
  rw [mulBits_append, ev_ch_sG_9]
  rw [mulBits_append, ev_ch_sG_10]
  rw [mulBits_append, ev_ch_sG_11]
  rw [mulBits_append, ev_ch_sG_12]
  rw [mulBits_append, ev_ch_sG_13]
  rw [mulBits_append, ev_ch_sG_14]
  rw [ev_ch_sG_15]
  decide

theorem ev_bits_ch : natBits 45169903159224190650192140433894557512096871368260212802750569957993394410507 = [0, 1, 1, 0, 0, 0, 1, 1, 1, 1, 0, 1, 1, 1, 0, 1] ++ ([0, 1, 0, 0, 0, 0, 1, 0, 0, 1, 0, 1, 1, 0, 1, 0] ++ ([0, 0, 1, 1, 1, 1, 0, 1, 1, 1, 0, 1, 0, 0, 1, 0] ++ ([1, 0, 1, 0, 0, 1, 1, 0, 1, 1, 1, 1, 0, 0, 0, 0] ++ ([1, 0, 1, 1, 0, 0, 1, 0, 0, 0, 0, 1, 0, 1, 0, 0] ++ ([0, 0, 0, 1, 1, 0, 0, 1, 0, 1, 1, 0, 0, 1, 1, 0] ++ ([0, 0, 0, 0, 0, 0, 1, 0, 0, 0, 1, 1, 0, 0, 1, 0] ++ ([0, 1, 0, 0, 0, 0, 1, 1, 1, 1, 0, 1, 0, 0, 1, 1] ++ ([0, 1, 0, 0, 1, 1, 0, 1, 1, 0, 0, 0, 1, 0, 1, 0] ++ ([1, 0, 0, 1, 1, 0, 0, 0, 0, 1, 0, 1, 0, 1, 0, 1] ++ ([1, 1, 1, 0, 1, 1, 1, 1, 1, 1, 1, 0, 0, 1, 1, 0] ++ ([0, 0, 0, 0, 1, 0, 0, 1, 0, 0, 1, 0, 0, 0, 1, 1] ++ ([0, 0, 0, 0, 0, 0, 0, 1, 1, 1, 1, 0, 0, 0, 1, 0] ++ ([1, 0, 1, 1, 1, 0, 1, 0, 0, 1, 1, 0, 0, 1, 0, 1] ++ ([0, 1, 0, 0, 0, 0, 0, 1, 0, 1, 1, 0, 0, 0, 1, 1] ++ ([0, 0, 0, 1, 0, 1, 0, 0, 0, 0, 0, 0, 1, 0, 1, 1]))))))))))))))) := by decide

theorem ev_ch_ch_0 : mulBits (⟨71870428708512090149913339165158470654342664881549645247681064198406646637773, 18133994692784395537675898994765282412985880849103835068644440256929064169791, 1⟩ : JacPoint) (⟨1, 1, 0⟩ : JacPoint) [0, 1, 1, 0, 0, 0, 1, 1, 1, 1, 0, 1, 1, 1, 0, 1] = (⟨53974606764499643659675778031602205501904131337734955913517021183305583470903, 35010260907854500395630879320086966284206116327268226090701674202424708027548, 26390096660137418089432703765668295353756245655976620959393326696765321453949⟩ : JacPoint) := by decide

theorem ev_ch_ch_1 : mulBits (⟨71870428708512090149913339165158470654342664881549645247681064198406646637773, 18133994692784395537675898994765282412985880849103835068644440256929064169791, 1⟩ : JacPoint) (⟨53974606764499643659675778031602205501904131337734955913517021183305583470903, 35010260907854500395630879320086966284206116327268226090701674202424708027548, 26390096660137418089432703765668295353756245655976620959393326696765321453949⟩ : JacPoint) [0, 1, 0, 0, 0, 0, 1, 0, 0, 1, 0, 1, 1, 0, 1, 0] = (⟨11146020434531492952811990629332076217154202460963980759091821480350913271407, 46644035259961019057635305980057454605397681510467428839135919100922485215598, 12661961705355557448908117089956126104934318018779501207339379476622404821878⟩ : JacPoint) := by decide

theorem ev_ch_ch_2 : mulBits (⟨71870428708512090149913339165158470654342664881549645247681064198406646637773, 18133994692784395537675898994765282412985880849103835068644440256929064169791, 1⟩ : JacPoint) (⟨11146020434531492952811990629332076217154202460963980759091821480350913271407, 46644035259961019057635305980057454605397681510467428839135919100922485215598, 12661961705355557448908117089956126104934318018779501207339379476622404821878⟩ : JacPoint) [0, 0, 1, 1, 1, 1, 0, 1, 1, 1, 0, 1, 0, 0, 1, 0] = (⟨84632625258274604795635012516172184195827481086732939364935303600238826505380, 92077469473941144775720846633674125568721934654222251260997642064237962584352, 10333470311230015040967576846166520777987964490015675310701245723130050958473⟩ : JacPoint) := by decide

theorem ev_ch_ch_3 : mulBits (⟨71870428708512090149913339165158470654342664881549645247681064198406646637773, 18133994692784395537675898994765282412985880849103835068644440256929064169791, 1⟩ : JacPoint) (⟨84632625258274604795635012516172184195827481086732939364935303600238826505380, 92077469473941144775720846633674125568721934654222251260997642064237962584352, 10333470311230015040967576846166520777987964490015675310701245723130050958473⟩ : JacPoint) [1, 0, 1, 0, 0, 1, 1, 0, 1, 1, 1, 1, 0, 0, 0, 0] = (⟨82587743002614740991483173362209817423065841269572787827742313269882060970476, 25318156363023096434297216266385010707250251492274454550457172088379874563174, 17593548148173837880730861258836611909024702394792237550756176246034748873705⟩ : JacPoint) := by decide

theorem ev_ch_ch_4 : mulBits (⟨71870428708512090149913339165158470654342664881549645247681064198406646637773, 18133994692784395537675898994765282412985880849103835068644440256929064169791, 1⟩ : JacPoint) (⟨82587743002614740991483173362209817423065841269572787827742313269882060970476, 25318156363023096434297216266385010707250251492274454550457172088379874563174, 17593548148173837880730861258836611909024702394792237550756176246034748873705⟩ : JacPoint) [1, 0, 1, 1, 0, 0, 1, 0, 0, 0, 0, 1, 0, 1, 0, 0] = (⟨21962074760226407193968042936830303961199599378482226120336907869095019271735, 39263711592816066721640796695899551073359390070072020593782713005720329381630, 64071698034777559599167211714768240756098875581514812715973005423318003349771⟩ : JacPoint) := by decide

theorem ev_ch_ch_5 : mulBits (⟨71870428708512090149913339165158470654342664881549645247681064198406646637773, 18133994692784395537675898994765282412985880849103835068644440256929064169791, 1⟩ : JacPoint) (⟨21962074760226407193968042936830303961199599378482226120336907869095019271735, 39263711592816066721640796695899551073359390070072020593782713005720329381630, 64071698034777559599167211714768240756098875581514812715973005423318003349771⟩ : JacPoint) [0, 0, 0, 1, 1, 0, 0, 1, 0, 1, 1, 0, 0, 1, 1, 0] = (⟨77197395744249576667957950620146958074549767986756060482677166099952356725309, 88593370475255572223936126183168902338759226648285540273937608125170316217534, 17331859449246088464244916706257446220210611852275026221545408707265421804237⟩ : JacPoint) := by decide

theorem ev_ch_ch_6 : mulBits (⟨71870428708512090149913339165158470654342664881549645247681064198406646637773, 18133994692784395537675898994765282412985880849103835068644440256929064169791, 1⟩ : JacPoint) (⟨77197395744249576667957950620146958074549767986756060482677166099952356725309, 88593370475255572223936126183168902338759226648285540273937608125170316217534, 17331859449246088464244916706257446220210611852275026221545408707265421804237⟩ : JacPoint) [0, 0, 0, 0, 0, 0, 1, 0, 0, 0, 1, 1, 0, 0, 1, 0] = (⟨73848419174004951795840452328697153662082883317915082804319036882546038228685, 93201028724734090707074258352857066555244950183354002452758349502883572419617, 105516164385912591931139977706052860134634408111199313165558228276511963369532⟩ : JacPoint) := by decide

theorem ev_ch_ch_7 : mulBits (⟨71870428708512090149913339165158470654342664881549645247681064198406646637773, 18133994692784395537675898994765282412985880849103835068644440256929064169791, 1⟩ : JacPoint) (⟨73848419174004951795840452328697153662082883317915082804319036882546038228685, 93201028724734090707074258352857066555244950183354002452758349502883572419617, 105516164385912591931139977706052860134634408111199313165558228276511963369532⟩ : JacPoint) [0, 1, 0, 0, 0, 0, 1, 1, 1, 1, 0, 1, 0, 0, 1, 1] = (⟨69656882444146631022774766398888605863591500324037819843570606454388943723890, 109005208526526693020383656648816675240285141176945158896441563119070719268579, 31834681610042628178514217433373640523285579609608001680264037460903440248056⟩ : JacPoint) := by decide

theorem ev_ch_ch_8 : mulBits (⟨71870428708512090149913339165158470654342664881549645247681064198406646637773, 18133994692784395537675898994765282412985880849103835068644440256929064169791, 1⟩ : JacPoint) (⟨69656882444146631022774766398888605863591500324037819843570606454388943723890, 109005208526526693020383656648816675240285141176945158896441563119070719268579, 31834681610042628178514217433373640523285579609608001680264037460903440248056⟩ : JacPoint) [0, 1, 0, 0, 1, 1, 0, 1, 1, 0, 0, 0, 1, 0, 1, 0] = (⟨11170898199928824478857591163314139191942408734323194076638008687210694621186, 23611259246102146668228890599116080424787409778863091478350447795274880382731, 44834590703509414530608234597671736422072305929890729623921889816362920555192⟩ : JacPoint) := by decide

theorem ev_ch_ch_9 : mulBits (⟨71870428708512090149913339165158470654342664881549645247681064198406646637773, 18133994692784395537675898994765282412985880849103835068644440256929064169791, 1⟩ : JacPoint) (⟨11170898199928824478857591163314139191942408734323194076638008687210694621186, 23611259246102146668228890599116080424787409778863091478350447795274880382731, 44834590703509414530608234597671736422072305929890729623921889816362920555192⟩ : JacPoint) [1, 0, 0, 1, 1, 0, 0, 0, 0, 1, 0, 1, 0, 1, 0, 1] = (⟨9050788250661135063136660327972960896126308900113039962919496651641409605310, 35696896796792026663268922220353617634984558766653927607042296817917400039062, 114815115966176492570232788279178964933694926871479496056637629774549249322177⟩ : JacPoint) := by decide

theorem ev_ch_ch_10 : mulBits (⟨71870428708512090149913339165158470654342664881549645247681064198406646637773, 18133994692784395537675898994765282412985880849103835068644440256929064169791, 1⟩ : JacPoint) (⟨9050788250661135063136660327972960896126308900113039962919496651641409605310, 35696896796792026663268922220353617634984558766653927607042296817917400039062, 114815115966176492570232788279178964933694926871479496056637629774549249322177⟩ : JacPoint) [1, 1, 1, 0, 1, 1, 1, 1, 1, 1, 1, 0, 0, 1, 1, 0] = (⟨31727896707127538617201005475712011587387254871284024840287861429538535146323, 103580570957100886383541684452257291290013721897466072314928399695171573771902, 55573119669270265507245227612329329531649575582206519869012848586979432686270⟩ : JacPoint) := by decide

theorem ev_ch_ch_11 : mulBits (⟨71870428708512090149913339165158470654342664881549645247681064198406646637773, 18133994692784395537675898994765282412985880849103835068644440256929064169791, 1⟩ : JacPoint) (⟨31727896707127538617201005475712011587387254871284024840287861429538535146323, 103580570957100886383541684452257291290013721897466072314928399695171573771902, 55573119669270265507245227612329329531649575582206519869012848586979432686270⟩ : JacPoint) [0, 0, 0, 0, 1, 0, 0, 1, 0, 0, 1, 0, 0, 0, 1, 1] = (⟨55052630116597745278789979103249184402270919579919970205005517601311796516999, 7145469829178888916944171093134565166241587261761038260894398986229023793878, 48345443672640171462584934110134512401261652698284891194124386782798155100587⟩ : JacPoint) := by decide

theorem ev_ch_ch_12 : mulBits (⟨71870428708512090149913339165158470654342664881549645247681064198406646637773, 18133994692784395537675898994765282412985880849103835068644440256929064169791, 1⟩ : JacPoint) (⟨55052630116597745278789979103249184402270919579919970205005517601311796516999, 7145469829178888916944171093134565166241587261761038260894398986229023793878, 48345443672640171462584934110134512401261652698284891194124386782798155100587⟩ : JacPoint) [0, 0, 0, 0, 0, 0, 0, 1, 1, 1, 1, 0, 0, 0, 1, 0] = (⟨55210707123827576573060423247350049455335332984702376099289736605180909075163, 107170244050674959913395111886038075262393062680373309698652490446396809366064, 104197051510763332701060570466460647489236575534927801522875201691606111210403⟩ : JacPoint) := by decide

theorem ev_ch_ch_13 : mulBits (⟨71870428708512090149913339165158470654342664881549645247681064198406646637773, 18133994692784395537675898994765282412985880849103835068644440256929064169791, 1⟩ : JacPoint) (⟨55210707123827576573060423247350049455335332984702376099289736605180909075163, 107170244050674959913395111886038075262393062680373309698652490446396809366064, 104197051510763332701060570466460647489236575534927801522875201691606111210403⟩ : JacPoint) [1, 0, 1, 1, 1, 0, 1, 0, 0, 1, 1, 0, 0, 1, 0, 1] = (⟨83195263367940767075501722874247517011367551515244800352902525146278868753639, 20902563992977442990785855773855279940488652620441005470811380146185867927639, 67136460636701043947733193738671481980785602631865955042192003860101420302678⟩ : JacPoint) := by decide

theorem ev_ch_ch_14 : mulBits (⟨71870428708512090149913339165158470654342664881549645247681064198406646637773, 18133994692784395537675898994765282412985880849103835068644440256929064169791, 1⟩ : JacPoint) (⟨83195263367940767075501722874247517011367551515244800352902525146278868753639, 20902563992977442990785855773855279940488652620441005470811380146185867927639, 67136460636701043947733193738671481980785602631865955042192003860101420302678⟩ : JacPoint) [0, 1, 0, 0, 0, 0, 0, 1, 0, 1, 1, 0, 0, 0, 1, 1] = (⟨59526399634681773335934061815875010865432254516021687279546991956136615895064, 105476259090600242197249758032153457297334276000974686002626559120168498534680, 3264658113640630727974781578051625511719804706741496313833173010382487589448⟩ : JacPoint) := by decide

theorem ev_ch_ch_15 : mulBits (⟨71870428708512090149913339165158470654342664881549645247681064198406646637773, 18133994692784395537675898994765282412985880849103835068644440256929064169791, 1⟩ : JacPoint) (⟨59526399634681773335934061815875010865432254516021687279546991956136615895064, 105476259090600242197249758032153457297334276000974686002626559120168498534680, 3264658113640630727974781578051625511719804706741496313833173010382487589448⟩ : JacPoint) [0, 0, 0, 1, 0, 1, 0, 0, 0, 0, 0, 0, 1, 0, 1, 1] = (⟨62883983639230182410601893623708840228822833986763534654444481446390029868080, 4437238376343694828636932888433473730474101435890373147286738686957726513750, 26861740876229991783560094511332190934745123290908957988946543633487173490956⟩ : JacPoint) := by decide

theorem ev_mul_ch : scalarMul 45169903159224190650192140433894557512096871368260212802750569957993394410507 (⟨71870428708512090149913339165158470654342664881549645247681064198406646637773, 18133994692784395537675898994765282412985880849103835068644440256929064169791⟩ : AffinePoint) = (⟨104056345929313369877287194981989616780245272163150037483220303946810239472026, 41942719964224345389101765500337769387716465227927199239260562680140454152779⟩ : AffinePoint) := by
  unfold scalarMul
  rw [show toJac (⟨71870428708512090149913339165158470654342664881549645247681064198406646637773, 18133994692784395537675898994765282412985880849103835068644440256929064169791⟩ : AffinePoint) = (⟨71870428708512090149913339165158470654342664881549645247681064198406646637773, 18133994692784395537675898994765282412985880849103835068644440256929064169791, 1⟩ : JacPoint) from rfl, ev_bits_ch]
  rw [mulBits_append, ev_ch_ch_0]
  rw [mulBits_append, ev_ch_ch_1]
  rw [mulBits_append, ev_ch_ch_2]
  rw [mulBits_append, ev_ch_ch_3]
  rw [mulBits_append, ev_ch_ch_4]
  rw [mulBits_append, ev_ch_ch_5]
  rw [mulBits_append, ev_ch_ch_6]
  rw [mulBits_append, ev_ch_ch_7]
  rw [mulBits_append, ev_ch_ch_8]
  rw [mulBits_append, ev_ch_ch_9]
  rw [mulBits_append, ev_ch_ch_10]
  rw [mulBits_append, ev_ch_ch_11]
  rw [mulBits_append, ev_ch_ch_12]
  rw [mulBits_append, ev_ch_ch_13]
  rw [mulBits_append, ev_ch_ch_14]
  rw [ev_ch_ch_15]
  decide

theorem ev_bits_sh : natBits 70622186078092004773378844574793350340740692910814691579854593183524767083831 = [1, 0, 0, 1, 1, 1, 0, 0, 0, 0, 1, 0, 0, 0, 1, 0] ++ ([1, 0, 1, 1, 1, 1, 0, 1, 1, 0, 1, 0, 0, 1, 0, 1] ++ ([1, 1, 0, 0, 0, 0, 1, 0, 0, 0, 1, 0, 1, 1, 0, 1] ++ ([0, 1, 0, 1, 1, 0, 0, 1, 0, 0, 0, 0, 1, 1, 1, 1] ++ ([0, 1, 0, 0, 1, 1, 0, 1, 1, 1, 1, 0, 1, 0, 1, 1] ++ ([1, 1, 1, 0, 0, 1, 1, 0, 1, 0, 0, 1, 1, 0, 0, 1] ++ ([1, 1, 1, 1, 1, 1, 0, 1, 1, 1, 0, 0, 1, 1, 0, 1] ++ ([1, 0, 1, 1, 1, 1, 0, 0, 0, 0, 1, 0, 1, 0, 1, 1] ++ ([0, 1, 1, 0, 1, 1, 0, 1, 0, 0, 1, 0, 0, 1, 0, 0] ++ ([0, 1, 0, 0, 0, 1, 0, 0, 1, 0, 0, 1, 0, 0, 0, 0] ++ ([1, 0, 1, 1, 1, 1, 1, 1, 0, 1, 1, 0, 0, 0, 1, 0] ++ ([1, 0, 0, 1, 0, 1, 1, 1, 0, 0, 0, 1, 1, 0, 0, 0] ++ ([1, 0, 1, 1, 1, 1, 0, 1, 1, 1, 1, 0, 1, 1, 1, 1] ++ ([1, 0, 1, 0, 0, 1, 0, 0, 0, 0, 1, 0, 0, 1, 1, 1] ++ ([1, 0, 0, 0, 1, 1, 1, 0, 1, 1, 0, 1, 0, 0, 1, 1] ++ ([0, 0, 1, 0, 1, 1, 0, 1, 0, 0, 1, 1, 0, 1, 1, 1]))))))))))))))) := by decide

theorem ev_ch_sh_0 : mulBits (⟨71870428708512090149913339165158470654342664881549645247681064198406646637773, 18133994692784395537675898994765282412985880849103835068644440256929064169791, 1⟩ : JacPoint) (⟨1, 1, 0⟩ : JacPoint) [1, 0, 0, 1, 1, 1, 0, 0, 0, 0, 1, 0, 0, 0, 1, 0] = (⟨96058401778838872060225670737671504576044670293472239927666819255688759179070, 44592850781588872274057811073918313980524746384417431068706314442758613327450, 83604021087442673553354169033345304928254481396975397476213158885189962500576⟩ : JacPoint) := by decide

theorem ev_ch_sh_1 : mulBits (⟨71870428708512090149913339165158470654342664881549645247681064198406646637773, 18133994692784395537675898994765282412985880849103835068644440256929064169791, 1⟩ : JacPoint) (⟨96058401778838872060225670737671504576044670293472239927666819255688759179070, 44592850781588872274057811073918313980524746384417431068706314442758613327450, 83604021087442673553354169033345304928254481396975397476213158885189962500576⟩ : JacPoint) [1, 0, 1, 1, 1, 1, 0, 1, 1, 0, 1, 0, 0, 1, 0, 1] = (⟨89006011912134335038294064864290526950026848070011687584798044790052953078197, 19762015040792661318592596247897563139957071682941618453407790908577068957255, 25516267776694169349468807510341643478822060773185752262722827693535403211064⟩ : JacPoint) := by decide

theorem ev_ch_sh_2 : mulBits (⟨71870428708512090149913339165158470654342664881549645247681064198406646637773, 18133994692784395537675898994765282412985880849103835068644440256929064169791, 1⟩ : JacPoint) (⟨89006011912134335038294064864290526950026848070011687584798044790052953078197, 19762015040792661318592596247897563139957071682941618453407790908577068957255, 25516267776694169349468807510341643478822060773185752262722827693535403211064⟩ : JacPoint) [1, 1, 0, 0, 0, 0, 1, 0, 0, 0, 1, 0, 1, 1, 0, 1] = (⟨36329866931276597294149428943975151182806014158636909477601163331426077904069, 65655711976883473148142740700535986684155330518758522470263145138625439644315, 53185904412800133355704278660389201476639103253381813451444868735294047834845⟩ : JacPoint) := by decide

theorem ev_ch_sh_3 : mulBits (⟨71870428708512090149913339165158470654342664881549645247681064198406646637773, 18133994692784395537675898994765282412985880849103835068644440256929064169791, 1⟩ : JacPoint) (⟨36329866931276597294149428943975151182806014158636909477601163331426077904069, 65655711976883473148142740700535986684155330518758522470263145138625439644315, 53185904412800133355704278660389201476639103253381813451444868735294047834845⟩ : JacPoint) [0, 1, 0, 1, 1, 0, 0, 1, 0, 0, 0, 0, 1, 1, 1, 1] = (⟨3627381747218181751895039445246525598818742729603137975942464093922331145467, 78975227093412854889176255257037345211878607705345617175891430341534871662522, 32157650823788588701077513538795036242871145188839712057983865877368893250486⟩ : JacPoint) := by decide

theorem ev_ch_sh_4 : mulBits (⟨71870428708512090149913339165158470654342664881549645247681064198406646637773, 18133994692784395537675898994765282412985880849103835068644440256929064169791, 1⟩ : JacPoint) (⟨3627381747218181751895039445246525598818742729603137975942464093922331145467, 78975227093412854889176255257037345211878607705345617175891430341534871662522, 32157650823788588701077513538795036242871145188839712057983865877368893250486⟩ : JacPoint) [0, 1, 0, 0, 1, 1, 0, 1, 1, 1, 1, 0, 1, 0, 1, 1] = (⟨24945898487791783689235771444263742848425726572452092423940024931048931622070, 52881344695059320631478041838178004053035511182009569206940619481514815217877, 15642044959047222054367817119318764644943859364665796817725326844089122157493⟩ : JacPoint) := by decide

theorem ev_ch_sh_5 : mulBits (⟨71870428708512090149913339165158470654342664881549645247681064198406646637773, 18133994692784395537675898994765282412985880849103835068644440256929064169791, 1⟩ : JacPoint) (⟨24945898487791783689235771444263742848425726572452092423940024931048931622070, 52881344695059320631478041838178004053035511182009569206940619481514815217877, 15642044959047222054367817119318764644943859364665796817725326844089122157493⟩ : JacPoint) [1, 1, 1, 0, 0, 1, 1, 0, 1, 0, 0, 1, 1, 0, 0, 1] = (⟨60534939008211512449653904800114255722398900526631952018629881822826862740298, 12004694272831415704901607900418951740785678720005825248366491371066599710600, 102128180897659088727959728692275283501235605518440075219745380540876746052320⟩ : JacPoint) := by decide

theorem ev_ch_sh_6 : mulBits (⟨71870428708512090149913339165158470654342664881549645247681064198406646637773, 18133994692784395537675898994765282412985880849103835068644440256929064169791, 1⟩ : JacPoint) (⟨60534939008211512449653904800114255722398900526631952018629881822826862740298, 12004694272831415704901607900418951740785678720005825248366491371066599710600, 102128180897659088727959728692275283501235605518440075219745380540876746052320⟩ : JacPoint) [1, 1, 1, 1, 1, 1, 0, 1, 1, 1, 0, 0, 1, 1, 0, 1] = (⟨103203383819702803188920080414483815435630601053420122321780030030274199823683, 93460660252271573371762579124077433134476975747408370573787058242399270699603, 30515206535458772984990073255123574551789021936610634131354880741007822026607⟩ : JacPoint) := by decide

theorem ev_ch_sh_7 : mulBits (⟨71870428708512090149913339165158470654342664881549645247681064198406646637773, 18133994692784395537675898994765282412985880849103835068644440256929064169791, 1⟩ : JacPoint) (⟨103203383819702803188920080414483815435630601053420122321780030030274199823683, 93460660252271573371762579124077433134476975747408370573787058242399270699603, 30515206535458772984990073255123574551789021936610634131354880741007822026607⟩ : JacPoint) [1, 0, 1, 1, 1, 1, 0, 0, 0, 0, 1, 0, 1, 0, 1, 1] = (⟨23858925082366351101394546106762854518199467208239331899591734180706562416269, 47931523827872285466346892913944867214977787229195667842873217538175878775904, 72979558373836962380659190948772507287477068252360341274229243575758111332269⟩ : JacPoint) := by decide

theorem ev_ch_sh_8 : mulBits (⟨71870428708512090149913339165158470654342664881549645247681064198406646637773, 18133994692784395537675898994765282412985880849103835068644440256929064169791, 1⟩ : JacPoint) (⟨23858925082366351101394546106762854518199467208239331899591734180706562416269, 47931523827872285466346892913944867214977787229195667842873217538175878775904, 72979558373836962380659190948772507287477068252360341274229243575758111332269⟩ : JacPoint) [0, 1, 1, 0, 1, 1, 0, 1, 0, 0, 1, 0, 0, 1, 0, 0] = (⟨72159895600337476161095571045918591518593103294729744995372908003995873046140, 40136301030420738388180913407530000124042473671546773597325116668139173469038, 84844001026583109444137602616102652200527572442801226271345936482476406602412⟩ : JacPoint) := by decide

theorem ev_ch_sh_9 : mulBits (⟨71870428708512090149913339165158470654342664881549645247681064198406646637773, 18133994692784395537675898994765282412985880849103835068644440256929064169791, 1⟩ : JacPoint) (⟨72159895600337476161095571045918591518593103294729744995372908003995873046140, 40136301030420738388180913407530000124042473671546773597325116668139173469038, 84844001026583109444137602616102652200527572442801226271345936482476406602412⟩ : JacPoint) [0, 1, 0, 0, 0, 1, 0, 0, 1, 0, 0, 1, 0, 0, 0, 0] = (⟨107787248792368550049901200489958703349838627113808644172383145142318076382611, 112226142900777956640333265967023018184182729079513291467799835329102953595647, 21531148712831241086211632277099693351050290392671640454214352447801826941603⟩ : JacPoint) := by decide

theorem ev_ch_sh_10 : mulBits (⟨71870428708512090149913339165158470654342664881549645247681064198406646637773, 18133994692784395537675898994765282412985880849103835068644440256929064169791, 1⟩ : JacPoint) (⟨107787248792368550049901200489958703349838627113808644172383145142318076382611, 112226142900777956640333265967023018184182729079513291467799835329102953595647, 21531148712831241086211632277099693351050290392671640454214352447801826941603⟩ : JacPoint) [1, 0, 1, 1, 1, 1, 1, 1, 0, 1, 1, 0, 0, 0, 1, 0] = (⟨18262644923321635273837198906271152801712313840739940658951293973894734582019, 49471896398114075105895500441360406761982456067391541690895102797059698987514, 9441635712461129728987000222506821585346353934115810187531418711387694726839⟩ : JacPoint) := by decide

theorem ev_ch_sh_11 : mulBits (⟨71870428708512090149913339165158470654342664881549645247681064198406646637773, 18133994692784395537675898994765282412985880849103835068644440256929064169791, 1⟩ : JacPoint) (⟨18262644923321635273837198906271152801712313840739940658951293973894734582019, 49471896398114075105895500441360406761982456067391541690895102797059698987514, 9441635712461129728987000222506821585346353934115810187531418711387694726839⟩ : JacPoint) [1, 0, 0, 1, 0, 1, 1, 1, 0, 0, 0, 1, 1, 0, 0, 0] = (⟨101279866859893670269534558089749418588377974712128175463552333722103341477466, 31411892010401576278609548515274707669158828943283111919603832359273247972830, 3219525512746042646555287387461098712444368908914728344038455283514314717268⟩ : JacPoint) := by decide

theorem ev_ch_sh_12 : mulBits (⟨71870428708512090149913339165158470654342664881549645247681064198406646637773, 18133994692784395537675898994765282412985880849103835068644440256929064169791, 1⟩ : JacPoint) (⟨101279866859893670269534558089749418588377974712128175463552333722103341477466, 31411892010401576278609548515274707669158828943283111919603832359273247972830, 3219525512746042646555287387461098712444368908914728344038455283514314717268⟩ : JacPoint) [1, 0, 1, 1, 1, 1, 0, 1, 1, 1, 1, 0, 1, 1, 1, 1] = (⟨43489875576039881991882024260271232482686309534503973710225976882616051459860, 14790424640756334536859434586479865452835488161820499008976066861250702143236, 38076789711108405361721220034302056311973744917105539972906876689524121152998⟩ : JacPoint) := by decide

theorem ev_ch_sh_13 : mulBits (⟨71870428708512090149913339165158470654342664881549645247681064198406646637773, 18133994692784395537675898994765282412985880849103835068644440256929064169791, 1⟩ : JacPoint) (⟨43489875576039881991882024260271232482686309534503973710225976882616051459860, 14790424640756334536859434586479865452835488161820499008976066861250702143236, 38076789711108405361721220034302056311973744917105539972906876689524121152998⟩ : JacPoint) [1, 0, 1, 0, 0, 1, 0, 0, 0, 0, 1, 0, 0, 1, 1, 1] = (⟨25551603488327687715239840274281880626661838426590388261198368691160112263906, 105615835398230789596070986693576179737977751970375340924800987718531454482909, 86385631562832223961049530014413235351783207556550958625125827422455604493171⟩ : JacPoint) := by decide

theorem ev_ch_sh_14 : mulBits (⟨71870428708512090149913339165158470654342664881549645247681064198406646637773, 18133994692784395537675898994765282412985880849103835068644440256929064169791, 1⟩ : JacPoint) (⟨25551603488327687715239840274281880626661838426590388261198368691160112263906, 105615835398230789596070986693576179737977751970375340924800987718531454482909, 86385631562832223961049530014413235351783207556550958625125827422455604493171⟩ : JacPoint) [1, 0, 0, 0, 1, 1, 1, 0, 1, 1, 0, 1, 0, 0, 1, 1] = (⟨49404911119264115290142115286169727534974666983289647847818565439239693223444, 96711352452900957408244417844260126652203216054427142187366769520803293125850, 95339546926732593994595507010943756729515871609745979944333312421675819808617⟩ : JacPoint) := by decide

theorem ev_ch_sh_15 : mulBits (⟨71870428708512090149913339165158470654342664881549645247681064198406646637773, 18133994692784395537675898994765282412985880849103835068644440256929064169791, 1⟩ : JacPoint) (⟨49404911119264115290142115286169727534974666983289647847818565439239693223444, 96711352452900957408244417844260126652203216054427142187366769520803293125850, 95339546926732593994595507010943756729515871609745979944333312421675819808617⟩ : JacPoint) [0, 0, 1, 0, 1, 1, 0, 1, 0, 0, 1, 1, 0, 1, 1, 1] = (⟨108657558448461161827625749573533975275255354661994152610540704904625421844134, 79119890057136982193858575762707934475091472696126189939319258232598475139318, 114425049934863944014267970818922740623976425893575871171062987214330521295719⟩ : JacPoint) := by decide

theorem ev_mul_sh : scalarMul 70622186078092004773378844574793350340740692910814691579854593183524767083831 (⟨71870428708512090149913339165158470654342664881549645247681064198406646637773, 18133994692784395537675898994765282412985880849103835068644440256929064169791⟩ : AffinePoint) = (⟨106055427400556595218509232973227237827735023372381157288864443600536627814859, 24103327662043916219715366345072676390861951756296115609796281094399219333389⟩ : AffinePoint) := by
  unfold scalarMul
  rw [show toJac (⟨71870428708512090149913339165158470654342664881549645247681064198406646637773, 18133994692784395537675898994765282412985880849103835068644440256929064169791⟩ : AffinePoint) = (⟨71870428708512090149913339165158470654342664881549645247681064198406646637773, 18133994692784395537675898994765282412985880849103835068644440256929064169791, 1⟩ : JacPoint) from rfl, ev_bits_sh]
  rw [mulBits_append, ev_ch_sh_0]
  rw [mulBits_append, ev_ch_sh_1]
  rw [mulBits_append, ev_ch_sh_2]
  rw [mulBits_append, ev_ch_sh_3]
  rw [mulBits_append, ev_ch_sh_4]
  rw [mulBits_append, ev_ch_sh_5]
  rw [mulBits_append, ev_ch_sh_6]
  rw [mulBits_append, ev_ch_sh_7]
  rw [mulBits_append, ev_ch_sh_8]
  rw [mulBits_append, ev_ch_sh_9]
  rw [mulBits_append, ev_ch_sh_10]
  rw [mulBits_append, ev_ch_sh_11]
  rw [mulBits_append, ev_ch_sh_12]
  rw [mulBits_append, ev_ch_sh_13]
  rw [mulBits_append, ev_ch_sh_14]
  rw [ev_ch_sh_15]
  decide

theorem ev_add_u : pointAdd (⟨52875959104073891628266812192888018107178853199925838177898960111133691594573, 87741885177825853246247394985785762812856640079911586049693225033674403844752⟩ : AffinePoint) (⟨87038628720268619764690271085158498521971702406746325595917693003993620009280, 98849711278498176785210440103756971579947168231690304501883350145746404420163⟩ : AffinePoint) = (⟨55066263022277343669578718895168534326250603453777594175500187360389116729240, 32670510020758816978083085130507043184471273380659243275938904335757337482424⟩ : AffinePoint) := by decide

theorem ev_fh0 : fieldHash (LongMarshal (⟨55066263022277343669578718895168534326250603453777594175500187360389116729240, 32670510020758816978083085130507043184471273380659243275938904335757337482424⟩ : AffinePoint) ++ beBytes32 2 ++ beBytes32 0) = 71870428708512090149913339165158470654342664881549645247681064198406646637773 := by
  decide

theorem ev_issq0 : IsSquare (YSquared 71870428708512090149913339165158470654342664881549645247681064198406646637773) = true := by
  rw [IsSquare_eq_expMod]
  decide

theorem ev_sqrt0 : SquareRoot (YSquared 71870428708512090149913339165158470654342664881549645247681064198406646637773) = 18133994692784395537675898994765282412985880849103835068644440256929064169791 := by
  rw [SquareRoot_eq_expMod]
  decide

theorem ev_addrG : EthereumAddress (⟨55066263022277343669578718895168534326250603453777594175500187360389116729240, 32670510020758816978083085130507043184471273380659243275938904335757337482424⟩ : AffinePoint) = 721457446580647751014191829380889690493307935711 := by decide

theorem ev_sfc : ScalarFromCurvePoints (⟨71870428708512090149913339165158470654342664881549645247681064198406646637773, 18133994692784395537675898994765282412985880849103835068644440256929064169791⟩ : AffinePoint) (⟨55066263022277343669578718895168534326250603453777594175500187360389116729240, 32670510020758816978083085130507043184471273380659243275938904335757337482424⟩ : AffinePoint) (⟨71870428708512090149913339165158470654342664881549645247681064198406646637773, 18133994692784395537675898994765282412985880849103835068644440256929064169791⟩ : AffinePoint) 721457446580647751014191829380889690493307935711 (⟨71870428708512090149913339165158470654342664881549645247681064198406646637773, 18133994692784395537675898994765282412985880849103835068644440256929064169791⟩ : AffinePoint) = 45169903159224190650192140433894557512096871368260212802750569957993394410507 := by
  decide

theorem ev_out : bytesToNat (keccak256 (LongMarshal (⟨71870428708512090149913339165158470654342664881549645247681064198406646637773, 18133994692784395537675898994765282412985880849103835068644440256929064169791⟩ : AffinePoint))) = 59568457980445748229819825558407995518889864759556578728690550880158057946463 := by decide

theorem ev_htc : HashToCurve (⟨55066263022277343669578718895168534326250603453777594175500187360389116729240, 32670510020758816978083085130507043184471273380659243275938904335757337482424⟩ : AffinePoint) 2 = Except.ok (⟨71870428708512090149913339165158470654342664881549645247681064198406646637773, 18133994692784395537675898994765282412985880849103835068644440256929064169791⟩ : AffinePoint) := by
  unfold HashToCurve
  rw [hashToCurveAux_step, ev_fh0, ev_issq0, if_pos rfl, ev_sqrt0]

theorem ev_pfh : proofFromHashPoint 1 2 1 (⟨55066263022277343669578718895168534326250603453777594175500187360389116729240, 32670510020758816978083085130507043184471273380659243275938904335757337482424⟩ : AffinePoint) (⟨71870428708512090149913339165158470654342664881549645247681064198406646637773, 18133994692784395537675898994765282412985880849103835068644440256929064169791⟩ : AffinePoint) = (⟨(⟨55066263022277343669578718895168534326250603453777594175500187360389116729240, 32670510020758816978083085130507043184471273380659243275938904335757337482424⟩ : AffinePoint), (⟨71870428708512090149913339165158470654342664881549645247681064198406646637773, 18133994692784395537675898994765282412985880849103835068644440256929064169791⟩ : AffinePoint), 45169903159224190650192140433894557512096871368260212802750569957993394410507, 70622186078092004773378844574793350340740692910814691579854593183524767083831, 2, 59568457980445748229819825558407995518889864759556578728690550880158057946463⟩ : Proof) := by
  simp only [proofFromHashPoint]
  rw [show Generator = (⟨55066263022277343669578718895168534326250603453777594175500187360389116729240, 32670510020758816978083085130507043184471273380659243275938904335757337482424⟩ : AffinePoint) from rfl, ev_mul_oneh, ev_mul_oneG, ev_addrG, ev_sfc, ev_out]
  decide

theorem ev_generate : generateProofWithNonce 1 2 1 = Except.ok (⟨(⟨55066263022277343669578718895168534326250603453777594175500187360389116729240, 32670510020758816978083085130507043184471273380659243275938904335757337482424⟩ : AffinePoint), (⟨71870428708512090149913339165158470654342664881549645247681064198406646637773, 18133994692784395537675898994765282412985880849103835068644440256929064169791⟩ : AffinePoint), 45169903159224190650192140433894557512096871368260212802750569957993394410507, 70622186078092004773378844574793350340740692910814691579854593183524767083831, 2, 59568457980445748229819825558407995518889864759556578728690550880158057946463⟩ : Proof) := by
  simp only [generateProofWithNonce]
  rw [show Generator = (⟨55066263022277343669578718895168534326250603453777594175500187360389116729240, 32670510020758816978083085130507043184471273380659243275938904335757337482424⟩ : AffinePoint) from rfl, ev_mul_oneG, ev_htc, except_map_ok, ev_pfh]
  decide

theorem ev_zinv : fInv 115554014563752628334609051555558365398506178945754814798360669722616982421848 = 99302055037206955225323276312987211009581233958339950647275839876165654688694 := by
  unfold fInv
  decide

theorem ev_prj : ProjectiveECAdd (⟨104056345929313369877287194981989616780245272163150037483220303946810239472026, 41942719964224345389101765500337769387716465227927199239260562680140454152779⟩ : AffinePoint) (⟨106055427400556595218509232973227237827735023372381157288864443600536627814859, 24103327662043916219715366345072676390861951756296115609796281094399219333389⟩ : AffinePoint) = (23569778729342006679229523370533151285126146060363620714846095102866927224567, 25635681402606443495108243325081243510655250935138130348183882482048341061199, 115554014563752628334609051555558365398506178945754814798360669722616982421848) := by
  decide

theorem ev_precalc_body : solidityPrecalcFromHash (⟨(⟨55066263022277343669578718895168534326250603453777594175500187360389116729240, 32670510020758816978083085130507043184471273380659243275938904335757337482424⟩ : AffinePoint), (⟨71870428708512090149913339165158470654342664881549645247681064198406646637773, 18133994692784395537675898994765282412985880849103835068644440256929064169791⟩ : AffinePoint), 45169903159224190650192140433894557512096871368260212802750569957993394410507, 70622186078092004773378844574793350340740692910814691579854593183524767083831, 2, 59568457980445748229819825558407995518889864759556578728690550880158057946463⟩ : Proof) (⟨71870428708512090149913339165158470654342664881549645247681064198406646637773, 18133994692784395537675898994765282412985880849103835068644440256929064169791⟩ : AffinePoint) = (⟨(⟨55066263022277343669578718895168534326250603453777594175500187360389116729240, 32670510020758816978083085130507043184471273380659243275938904335757337482424⟩ : AffinePoint), (⟨71870428708512090149913339165158470654342664881549645247681064198406646637773, 18133994692784395537675898994765282412985880849103835068644440256929064169791⟩ : AffinePoint), 45169903159224190650192140433894557512096871368260212802750569957993394410507, 70622186078092004773378844574793350340740692910814691579854593183524767083831, 2, 721457446580647751014191829380889690493307935711, (⟨104056345929313369877287194981989616780245272163150037483220303946810239472026, 41942719964224345389101765500337769387716465227927199239260562680140454152779⟩ : AffinePoint), (⟨106055427400556595218509232973227237827735023372381157288864443600536627814859, 24103327662043916219715366345072676390861951756296115609796281094399219333389⟩ : AffinePoint), 99302055037206955225323276312987211009581233958339950647275839876165654688694⟩ : SolidityProof) := by
  simp only [solidityPrecalcFromHash]
  rw [show Generator = (⟨55066263022277343669578718895168534326250603453777594175500187360389116729240, 32670510020758816978083085130507043184471273380659243275938904335757337482424⟩ : AffinePoint) from rfl, ev_mul_cG, ev_mul_sG, ev_add_u, ev_addrG,
    ev_mul_ch, ev_mul_sh, ev_prj]
  rw [show (((23569778729342006679229523370533151285126146060363620714846095102866927224567:Nat), (25635681402606443495108243325081243510655250935138130348183882482048341061199:Nat), (115554014563752628334609051555558365398506178945754814798360669722616982421848:Nat)).2.2) = 115554014563752628334609051555558365398506178945754814798360669722616982421848 from rfl, ev_zinv]

theorem ev_precalc : SolidityPrecalculations (⟨(⟨55066263022277343669578718895168534326250603453777594175500187360389116729240, 32670510020758816978083085130507043184471273380659243275938904335757337482424⟩ : AffinePoint), (⟨71870428708512090149913339165158470654342664881549645247681064198406646637773, 18133994692784395537675898994765282412985880849103835068644440256929064169791⟩ : AffinePoint), 45169903159224190650192140433894557512096871368260212802750569957993394410507, 70622186078092004773378844574793350340740692910814691579854593183524767083831, 2, 59568457980445748229819825558407995518889864759556578728690550880158057946463⟩ : Proof) = Except.ok (⟨(⟨55066263022277343669578718895168534326250603453777594175500187360389116729240, 32670510020758816978083085130507043184471273380659243275938904335757337482424⟩ : AffinePoint), (⟨71870428708512090149913339165158470654342664881549645247681064198406646637773, 18133994692784395537675898994765282412985880849103835068644440256929064169791⟩ : AffinePoint), 45169903159224190650192140433894557512096871368260212802750569957993394410507, 70622186078092004773378844574793350340740692910814691579854593183524767083831, 2, 721457446580647751014191829380889690493307935711, (⟨104056345929313369877287194981989616780245272163150037483220303946810239472026, 41942719964224345389101765500337769387716465227927199239260562680140454152779⟩ : AffinePoint), (⟨106055427400556595218509232973227237827735023372381157288864443600536627814859, 24103327662043916219715366345072676390861951756296115609796281094399219333389⟩ : AffinePoint), 99302055037206955225323276312987211009581233958339950647275839876165654688694⟩ : SolidityProof) := by
  simp only [SolidityPrecalculations]
  rw [ev_htc, except_map_ok, ev_precalc_body]

theorem ev_verify_body : verifyWithHashPoint (⟨(⟨55066263022277343669578718895168534326250603453777594175500187360389116729240, 32670510020758816978083085130507043184471273380659243275938904335757337482424⟩ : AffinePoint), (⟨71870428708512090149913339165158470654342664881549645247681064198406646637773, 18133994692784395537675898994765282412985880849103835068644440256929064169791⟩ : AffinePoint), 45169903159224190650192140433894557512096871368260212802750569957993394410507, 70622186078092004773378844574793350340740692910814691579854593183524767083831, 2, 721457446580647751014191829380889690493307935711, (⟨104056345929313369877287194981989616780245272163150037483220303946810239472026, 41942719964224345389101765500337769387716465227927199239260562680140454152779⟩ : AffinePoint), (⟨106055427400556595218509232973227237827735023372381157288864443600536627814859, 24103327662043916219715366345072676390861951756296115609796281094399219333389⟩ : AffinePoint), 99302055037206955225323276312987211009581233958339950647275839876165654688694⟩ : SolidityProof) (⟨71870428708512090149913339165158470654342664881549645247681064198406646637773, 18133994692784395537675898994765282412985880849103835068644440256929064169791⟩ : AffinePoint) = Except.ok 59568457980445748229819825558407995518889864759556578728690550880158057946463 := by
  simp only [verifyWithHashPoint]
  rw [show Generator = (⟨55066263022277343669578718895168534326250603453777594175500187360389116729240, 32670510020758816978083085130507043184471273380659243275938904335757337482424⟩ : AffinePoint) from rfl]
  rw [ev_prj]
  rw [ev_mul_ch, ev_mul_sh, ev_mul_cG, ev_mul_sG, ev_add_u, ev_addrG]
  rw [(by decide : ((23569778729342006679229523370533151285126146060363620714846095102866927224567:Nat), (25635681402606443495108243325081243510655250935138130348183882482048341061199:Nat), (115554014563752628334609051555558365398506178945754814798360669722616982421848:Nat)).1 * 99302055037206955225323276312987211009581233958339950647275839876165654688694 % fieldSize = 71870428708512090149913339165158470654342664881549645247681064198406646637773),
    (by decide : ((23569778729342006679229523370533151285126146060363620714846095102866927224567:Nat), (25635681402606443495108243325081243510655250935138130348183882482048341061199:Nat), (115554014563752628334609051555558365398506178945754814798360669722616982421848:Nat)).2.1 * 99302055037206955225323276312987211009581233958339950647275839876165654688694 % fieldSize = 18133994692784395537675898994765282412985880849103835068644440256929064169791)]
  rw [ev_sfc, ev_out]
  decide

theorem ev_verify : verifySolidityProof (⟨(⟨55066263022277343669578718895168534326250603453777594175500187360389116729240, 32670510020758816978083085130507043184471273380659243275938904335757337482424⟩ : AffinePoint), (⟨71870428708512090149913339165158470654342664881549645247681064198406646637773, 18133994692784395537675898994765282412985880849103835068644440256929064169791⟩ : AffinePoint), 45169903159224190650192140433894557512096871368260212802750569957993394410507, 70622186078092004773378844574793350340740692910814691579854593183524767083831, 2, 721457446580647751014191829380889690493307935711, (⟨104056345929313369877287194981989616780245272163150037483220303946810239472026, 41942719964224345389101765500337769387716465227927199239260562680140454152779⟩ : AffinePoint), (⟨106055427400556595218509232973227237827735023372381157288864443600536627814859, 24103327662043916219715366345072676390861951756296115609796281094399219333389⟩ : AffinePoint), 99302055037206955225323276312987211009581233958339950647275839876165654688694⟩ : SolidityProof) = Except.ok 59568457980445748229819825558407995518889864759556578728690550880158057946463 := by
  simp only [verifySolidityProof]
  rw [ev_htc, except_bind_ok, ev_verify_body]
  decide

/-- C6: with `secretKey = 1`, `seed = 2` and nonce 1, proof generation
succeeds; the proof's public key is `scalarMul 1 Generator` and its seed 2;
the marshalled witnesses verify, returning exactly the proof's output;
the output equals `keccak256(LongMarshal Gamma)`; and generation is
deterministic: the same nonce reproduces the identical proof. -/
theorem generate_verify_scenario :
    ∃ proof : Proof,
      generateProofWithNonce 1 2 1 = Except.ok proof ∧
      proof.PublicKey = scalarMul 1 Generator ∧
      proof.Seed = 2 ∧
      (∃ sp : SolidityProof,
        SolidityPrecalculations proof = Except.ok sp ∧
        verifySolidityProof sp = Except.ok proof.Output) ∧
      proof.Output = bytesToNat (keccak256 (LongMarshal proof.Gamma)) ∧
      generateProofWithNonce 1 2 1 = generateProofWithNonce 1 2 1 := by
  refine ⟨(⟨(⟨55066263022277343669578718895168534326250603453777594175500187360389116729240, 32670510020758816978083085130507043184471273380659243275938904335757337482424⟩ : AffinePoint), (⟨71870428708512090149913339165158470654342664881549645247681064198406646637773, 18133994692784395537675898994765282412985880849103835068644440256929064169791⟩ : AffinePoint), 45169903159224190650192140433894557512096871368260212802750569957993394410507, 70622186078092004773378844574793350340740692910814691579854593183524767083831, 2, 59568457980445748229819825558407995518889864759556578728690550880158057946463⟩ : Proof), ev_generate, ?_, rfl, ⟨(⟨(⟨55066263022277343669578718895168534326250603453777594175500187360389116729240, 32670510020758816978083085130507043184471273380659243275938904335757337482424⟩ : AffinePoint), (⟨71870428708512090149913339165158470654342664881549645247681064198406646637773, 18133994692784395537675898994765282412985880849103835068644440256929064169791⟩ : AffinePoint), 45169903159224190650192140433894557512096871368260212802750569957993394410507, 70622186078092004773378844574793350340740692910814691579854593183524767083831, 2, 721457446580647751014191829380889690493307935711, (⟨104056345929313369877287194981989616780245272163150037483220303946810239472026, 41942719964224345389101765500337769387716465227927199239260562680140454152779⟩ : AffinePoint), (⟨106055427400556595218509232973227237827735023372381157288864443600536627814859, 24103327662043916219715366345072676390861951756296115609796281094399219333389⟩ : AffinePoint), 99302055037206955225323276312987211009581233958339950647275839876165654688694⟩ : SolidityProof), ev_precalc, ev_verify⟩, ?_, rfl⟩
  · rw [show Generator = (⟨55066263022277343669578718895168534326250603453777594175500187360389116729240, 32670510020758816978083085130507043184471273380659243275938904335757337482424⟩ : AffinePoint) from rfl, ev_mul_oneG]
  · show (59568457980445748229819825558407995518889864759556578728690550880158057946463 : Nat) = bytesToNat (keccak256 (LongMarshal (⟨71870428708512090149913339165158470654342664881549645247681064198406646637773, 18133994692784395537675898994765282412985880849103835068644440256929064169791⟩ : AffinePoint)))
    rw [ev_out]

end Chainlink
